import Mathlib

/-!
# Flash persistence controller (`fstorage_manager.c`)

A shallow embedding of `src/project/fstorage_manager.c`.  The three mirrors
(`impact_count`, `impact_score_latest`, `impact_score_max`) and the flash driver
state are threaded explicitly through a small result-carrying state monad.
The functions of the source keep their names; the SDK entry points they call
(`nrf_fstorage_erase`, `nrf_fstorage_write`, `nrf_fstorage_read`,
`nrf_fstorage_is_busy`, `sd_app_evt_wait`, `APP_ERROR_CHECK`) are external and are
modelled from the specification of the flash driver.
-/

namespace Fstorage

/-! ## Constants -/

/-- Modelled from the spec: the SDK constant `NRF_SUCCESS` (its header is not in the
repository), the one success code; every other code is a fault. -/
def NRF_SUCCESS : Nat := 0

/-- Modelled from the spec: the page size of the flash (a hardware constant, not in the
repository), the erase unit of the region, 4 KiB. -/
def PAGE_SIZE : Nat := 4096

/-- Field `.start_addr` of the `fstorage` instance. -/
def start_addr : Nat := 0x7D000

/-- Field `.end_addr` of the `fstorage` instance. -/
def end_addr : Nat := 0x80000

/-! ## Data model -/

/-- The three kinds of driver operation. -/
inductive OpKind
  | erase
  | write
  | read
deriving DecidableEq, Repr

/-- A driver operation: `len` counts pages for an erase and bytes for a write or a read;
`data` is the payload of a write. -/
structure Op where
  kind : OpKind
  addr : Nat
  len : Nat
  data : List Nat
deriving DecidableEq, Repr

/-- What the driver observes: a call of one of its entry points with the return code it
gave, or the delivery of a completion event to the registered handler. -/
inductive Ev
  | issue (op : Op) (rc : Nat)
  | complete (op : Op) (result : Nat)
deriving DecidableEq, Repr

/-- An accepted asynchronous operation waiting in the driver: `seq` is the number of the
call that queued it, `delay` the number of unrelated wake-ups left before it completes. -/
structure Pending where
  op : Op
  seq : Nat
  delay : Nat
deriving DecidableEq, Repr

/-- Behaviour of the hardware, indexed by the number of the driver call: the return code of
the call, the result code carried by its completion event, and how many unrelated events
wake the processor before that completion is delivered. -/
structure Env where
  rc : Nat → Nat
  result : Nat → Nat
  latency : Nat → Nat

/-- Program state: flash bytes, the driver queue, the log of driver events, the number of
driver calls made so far, and the three mirrors (`uint8_t`, `uint16_t`, `uint16_t`). -/
structure World where
  flash : Nat → Fin 256
  queue : List Pending
  trace : List Ev
  calls : Nat
  impact_count : Nat
  impact_score_latest : Nat
  impact_score_max : Nat

/-- Outcome of running a piece of the program: normal return, termination through
`APP_ERROR_CHECK`, or the wait loop still spinning when the fuel ran out. -/
inductive Result (α : Type)
  | ok (a : α) (w : World)
  | fatal (w : World)
  | hung (w : World)

/-- The state reached, whatever the outcome. -/
def Result.world {α : Type} : Result α → World
  | .ok _ w => w
  | .fatal w => w
  | .hung w => w

/-- Continue with `f` after a normal return; the two abnormal outcomes propagate. -/
def Result.andThen {α β : Type} (r : Result α) (f : α → World → Result β) : Result β :=
  match r with
  | .ok a w => f a w
  | .fatal w => .fatal w
  | .hung w => .hung w

/-- A program fragment. -/
def Prog (α : Type) : Type := World → Result α

instance : Monad Prog where
  pure a := fun w => .ok a w
  bind m f := fun w => (m w).andThen f

/-! ## Flash array -/

/-- Modelled from the spec: the flash hardware; erasing sets every bit of the `pages` pages
starting at `addr`. -/
def flashErase (flash : Nat → Fin 256) (addr pages : Nat) : Nat → Fin 256 :=
  fun a => if addr ≤ a ∧ a < addr + pages * PAGE_SIZE then 255 else flash a

/-- Modelled from the spec: the flash hardware; programming a byte can only clear bits
(1 to 0 transitions). -/
def progByte (old : Fin 256) (b : Nat) : Fin 256 :=
  ⟨(old.val &&& b) % 256, Nat.mod_lt _ (by decide)⟩

/-- Modelled from the spec: the flash hardware; programming the bytes `data` at consecutive
addresses from `addr`. -/
def flashWrite (flash : Nat → Fin 256) (addr : Nat) (data : List Nat) : Nat → Fin 256 :=
  fun a =>
    if addr ≤ a ∧ a < addr + data.length then progByte (flash a) (data.getD (a - addr) 0)
    else flash a

/-- The `len` bytes stored from `addr`. -/
def readBytes (flash : Nat → Fin 256) (addr len : Nat) : List Nat :=
  (List.range len).map (fun i => (flash (addr + i)).val)

/-- Effect of a completed operation on the flash array. -/
def Op.apply (op : Op) (flash : Nat → Fin 256) : Nat → Fin 256 :=
  match op.kind with
  | .erase => flashErase flash op.addr op.len
  | .write => flashWrite flash op.addr op.data
  | .read => flash

/-- Memory image of a `uint32_t` on the little-endian target. -/
def le_bytes32 (v : Nat) : List Nat :=
  [v % 256, v / 256 % 256, v / 65536 % 256, v / 16777216 % 256]

/-- Value of a little-endian byte string. -/
def le_word : List Nat → Nat
  | [] => 0
  | b :: bs => b + 256 * le_word bs

/-- The 32-bit word stored at `addr`. -/
def wordAt (flash : Nat → Fin 256) (addr : Nat) : Nat :=
  le_word (readBytes flash addr 4)

/-! ## Driver entry points -/

/-- Modelled from the spec: the SDK macro `APP_ERROR_CHECK` (not in the repository), which
terminates the program unless the code is `NRF_SUCCESS`. -/
def APP_ERROR_CHECK (code : Nat) : Prog Unit :=
  fun w => if code = NRF_SUCCESS then .ok () w else .fatal w

/-- Modelled from the spec: the common part of the asynchronous SDK calls (not in the
repository): the request is logged, answered with the return code of the hardware, and
queued when accepted. -/
def submit (env : Env) (op : Op) : Prog Nat :=
  fun w =>
    let rc := env.rc w.calls
    .ok rc { w with
      calls := w.calls + 1
      trace := w.trace ++ [Ev.issue op rc]
      queue := if rc = NRF_SUCCESS then w.queue ++ [⟨op, w.calls, env.latency w.calls⟩]
               else w.queue }

/-- Modelled from the spec: the SDK call `nrf_fstorage_erase` (not in the repository),
`erase(pageAddress, pageCount)`. -/
def nrf_fstorage_erase (env : Env) (page_addr len : Nat) : Prog Nat :=
  submit env ⟨.erase, page_addr, len, []⟩

/-- Modelled from the spec: the SDK call `nrf_fstorage_write` (not in the repository),
`write(address, bytes)`. -/
def nrf_fstorage_write (env : Env) (dest : Nat) (src : List Nat) : Prog Nat :=
  submit env ⟨.write, dest, src.length, src⟩

/-- Modelled from the spec: the SDK call `nrf_fstorage_read` (not in the repository),
`read(address, length)`, synchronous; the value returned is the return code together with the
bytes copied into the destination buffer. -/
def nrf_fstorage_read (env : Env) (addr len : Nat) : Prog (Nat × List Nat) :=
  fun w =>
    let rc := env.rc w.calls
    .ok (rc, readBytes w.flash addr len) { w with
      calls := w.calls + 1
      trace := w.trace ++ [Ev.issue ⟨.read, addr, len, []⟩ rc] }

/-- Modelled from the spec: the SDK call `nrf_fstorage_is_busy` (not in the repository), the
busy flag, set while an operation is outstanding. -/
def nrf_fstorage_is_busy (w : World) : Bool :=
  !w.queue.isEmpty

/-- Handler `fstorage_evt_handler`: the logging branch is compiled out
(`DISPLAY_FSTORAGE_INFO` is not defined), leaving `APP_ERROR_CHECK(p_evt->result)`. -/
def fstorage_evt_handler (result : Nat) : Prog Unit :=
  APP_ERROR_CHECK result

/-- Modelled from the spec: the SoftDevice call `sd_app_evt_wait` (not in the repository),
sleeping until the next event.  Either an unrelated event wakes
the processor, or the oldest outstanding operation completes: it takes effect on the flash
when successful, leaves the queue, and its completion is handed to `fstorage_evt_handler`. -/
def sd_app_evt_wait (env : Env) : Prog Unit :=
  fun w =>
    match w.queue with
    | [] => .ok () w
    | p :: rest =>
      match p.delay with
      | d + 1 => .ok () { w with queue := { p with delay := d } :: rest }
      | 0 =>
        fstorage_evt_handler (env.result p.seq) { w with
          queue := rest
          flash := if env.result p.seq = NRF_SUCCESS then p.op.apply w.flash else w.flash
          trace := w.trace ++ [Ev.complete p.op (env.result p.seq)] }

/-- Loop `wait_for_flash_ready`: `while (nrf_fstorage_is_busy(..)) sd_app_evt_wait();` with
the number of iterations bounded by the fuel. -/
def wait_for_flash_ready (env : Env) : Nat → Prog Unit
  | 0 => fun w => if nrf_fstorage_is_busy w then .hung w else .ok () w
  | fuel + 1 => fun w =>
    if nrf_fstorage_is_busy w then
      (sd_app_evt_wait env w).andThen (fun _ => wait_for_flash_ready env fuel)
    else .ok () w

/-! ## Mirrors -/

/-- Reading `impact_count` into a `uint32_t`. -/
def get_impact_count : Prog Nat := fun w => .ok (w.impact_count % 2 ^ 32) w

/-- Reading `impact_score_latest` into a `uint32_t`. -/
def get_impact_score_latest : Prog Nat := fun w => .ok (w.impact_score_latest % 2 ^ 32) w

/-- Reading `impact_score_max` into a `uint32_t`. -/
def get_impact_score_max : Prog Nat := fun w => .ok (w.impact_score_max % 2 ^ 32) w

/-- Assignment to the `uint8_t impact_count`. -/
def set_impact_count (v : Nat) : Prog Unit :=
  fun w => .ok () { w with impact_count := v % 2 ^ 8 }

/-- Assignment to the `uint16_t impact_score_latest`. -/
def set_impact_score_latest (v : Nat) : Prog Unit :=
  fun w => .ok () { w with impact_score_latest := v % 2 ^ 16 }

/-- Assignment to the `uint16_t impact_score_max`. -/
def set_impact_score_max (v : Nat) : Prog Unit :=
  fun w => .ok () { w with impact_score_max := v % 2 ^ 16 }

/-! ## The two operations of the controller -/

/-- Function `fstorage_write_impact` of the source. -/
def fstorage_write_impact (env : Env) (fuel : Nat) : Prog Unit := do
  let rc ← nrf_fstorage_erase env 0x7d000 1
  APP_ERROR_CHECK rc
  wait_for_flash_ready env fuel
  let rc ← nrf_fstorage_erase env 0x7e000 1
  APP_ERROR_CHECK rc
  wait_for_flash_ready env fuel
  let rc ← nrf_fstorage_erase env 0x7f000 1
  APP_ERROR_CHECK rc
  wait_for_flash_ready env fuel
  let store_data ← get_impact_count
  let rc ← nrf_fstorage_write env 0x7d000 (le_bytes32 store_data)
  APP_ERROR_CHECK rc
  wait_for_flash_ready env fuel
  let store_data ← get_impact_score_latest
  let rc ← nrf_fstorage_write env 0x7e000 (le_bytes32 store_data)
  APP_ERROR_CHECK rc
  wait_for_flash_ready env fuel
  let store_data ← get_impact_score_max
  let rc ← nrf_fstorage_write env 0x7f000 (le_bytes32 store_data)
  APP_ERROR_CHECK rc
  wait_for_flash_ready env fuel

/-- Function `fstorage_read_impact` of the source. -/
def fstorage_read_impact (env : Env) (fuel : Nat) : Prog Unit := do
  let (rc, read_data) ← nrf_fstorage_read env 0x7d000 4
  APP_ERROR_CHECK rc
  set_impact_count (le_word read_data % 2 ^ 32)
  let (rc, read_data) ← nrf_fstorage_read env 0x7e000 4
  APP_ERROR_CHECK rc
  set_impact_score_latest (le_word read_data % 2 ^ 32)
  let (rc, read_data) ← nrf_fstorage_read env 0x7f000 4
  APP_ERROR_CHECK rc
  set_impact_score_max (le_word read_data % 2 ^ 32)
  wait_for_flash_ready env fuel


/-! ## States reached by single requests -/

/-- The state right after the completion of `op` has been delivered. -/
def completed (env : Env) (w : World) (op : Op) (seq : Nat) : World :=
  { w with
    queue := []
    flash := if env.result seq = NRF_SUCCESS then op.apply w.flash else w.flash
    trace := w.trace ++ [Ev.complete op (env.result seq)] }

/-- State after `op` was accepted by an idle driver and completed successfully. -/
def served (w : World) (op : Op) : World :=
  { w with
    calls := w.calls + 1
    flash := op.apply w.flash
    trace := w.trace ++ [Ev.issue op 0, Ev.complete op 0] }

/-- State after the call for `op` was answered with the code `rc`, without being queued. -/
def refused (w : World) (op : Op) (rc : Nat) : World :=
  { w with
    calls := w.calls + 1
    trace := w.trace ++ [Ev.issue op rc] }

/-- State after `op` was accepted and its completion reported the code `r`. -/
def aborted (w : World) (op : Op) (r : Nat) : World :=
  { w with
    calls := w.calls + 1
    trace := w.trace ++ [Ev.issue op 0, Ev.complete op r] }

/-- The erase request of one page at `addr`. -/
def eraseOp (addr : Nat) : Op := ⟨.erase, addr, 1, []⟩

/-- The write request of the 32-bit word `v` at `addr`. -/
def writeOp (addr v : Nat) : Op := ⟨.write, addr, 4, le_bytes32 v⟩

/-- The read request of four bytes at `addr`. -/
def readOp (addr : Nat) : Op := ⟨.read, addr, 4, []⟩

/-- A driver that accepts and completes every request, each within `fuel` wake-ups. -/
structure FaultFree (env : Env) (fuel : Nat) : Prop where
  rc : ∀ n, env.rc n = 0
  result : ∀ n, env.result n = 0
  latency : ∀ n, env.latency n < fuel

/-- State in which a fault-free `fstorage_write_impact` returns. -/
def persisted (w : World) : World :=
  served (served (served (served (served (served w
    (eraseOp 0x7d000)) (eraseOp 0x7e000)) (eraseOp 0x7f000))
    (writeOp 0x7d000 (w.impact_count % 2 ^ 32)))
    (writeOp 0x7e000 (w.impact_score_latest % 2 ^ 32)))
    (writeOp 0x7f000 (w.impact_score_max % 2 ^ 32))

/-- State after a successful read of the word at `0x7d000` into `impact_count`. -/
def loaded1 (w : World) : World :=
  { w with
    calls := w.calls + 1
    trace := w.trace ++ [Ev.issue (readOp 0x7d000) 0]
    impact_count := wordAt w.flash 0x7d000 % 2 ^ 32 % 2 ^ 8 }

/-- State after the further successful read of the word at `0x7e000` into
`impact_score_latest`. -/
def loaded2 (w : World) : World :=
  { loaded1 w with
    calls := w.calls + 2
    trace := w.trace ++ [Ev.issue (readOp 0x7d000) 0, Ev.issue (readOp 0x7e000) 0]
    impact_score_latest := wordAt w.flash 0x7e000 % 2 ^ 32 % 2 ^ 16 }

/-- State in which a fault-free `fstorage_read_impact` returns. -/
def loaded (w : World) : World :=
  { loaded2 w with
    calls := w.calls + 3
    trace := w.trace ++
      [Ev.issue (readOp 0x7d000) 0, Ev.issue (readOp 0x7e000) 0, Ev.issue (readOp 0x7f000) 0]
    impact_score_max := wordAt w.flash 0x7f000 % 2 ^ 32 % 2 ^ 16 }

/-- Flash contents produced from `flash` by erasing the three pages and then programming the
words `a`, `b`, `c` at their bases. -/
def persistedFlash (flash : Nat → Fin 256) (a b c : Nat) : Nat → Fin 256 :=
  (writeOp 0x7f000 c).apply ((writeOp 0x7e000 b).apply ((writeOp 0x7d000 a).apply
    ((eraseOp 0x7f000).apply ((eraseOp 0x7e000).apply ((eraseOp 0x7d000).apply flash)))))

/-! ## Records and the round trip -/

/-- The three Records of the specification. -/
inductive Record
  | ImpactCount
  | LatestScore
  | MaxScore
deriving DecidableEq, Repr

/-- The mirror of a Record. -/
def mirror : Record → World → Nat
  | .ImpactCount, w => w.impact_count
  | .LatestScore, w => w.impact_score_latest
  | .MaxScore, w => w.impact_score_max

/-- Width in bits of the variable declared for the mirror of a Record. -/
def mirrorBits : Record → Nat
  | .ImpactCount => 8
  | .LatestScore => 16
  | .MaxScore => 16

/-- A C assignment of the value `v` to the mirror of a Record. -/
def assign : Record → Nat → World → World
  | .ImpactCount, v, w => (set_impact_count v w).world
  | .LatestScore, v, w => (set_impact_score_latest v w).world
  | .MaxScore, v, w => (set_impact_score_max v w).world

/-- The mirrors hold values of their declared types. -/
def WellTyped (w : World) : Prop :=
  w.impact_count < 2 ^ 8 ∧ w.impact_score_latest < 2 ^ 16 ∧ w.impact_score_max < 2 ^ 16

/-- Modelled from the spec: a simulated power cycle resets the mirrors to 0; the flash keeps
its contents. -/
def powerCycle (w : World) : World :=
  { w with impact_count := 0, impact_score_latest := 0, impact_score_max := 0 }

/-- Persist, power-cycle, load. -/
def roundTrip (env : Env) (fuel : Nat) (w : World) : Result Unit :=
  (fstorage_write_impact env fuel w).andThen
    (fun _ w1 => fstorage_read_impact env fuel (powerCycle w1))

/-- A driver without faults that completes every request at the first wake-up. -/
def promptEnv : Env := ⟨fun _ => 0, fun _ => 0, fun _ => 0⟩

/-- A driver without faults that completes every request after two unrelated wake-ups. -/
def slowEnv : Env := ⟨fun _ => 0, fun _ => 0, fun _ => 2⟩

/-- A driver whose second request is accepted and then completes with the error code 7. -/
def failingCompletionEnv : Env := ⟨fun _ => 0, fun n => if n = 1 then 7 else 0, fun _ => 0⟩

/-- A driver that answers its second call with the error code 7. -/
def failingCallEnv : Env := ⟨fun n => if n = 1 then 7 else 0, fun _ => 0, fun _ => 0⟩

/-- An idle system on erased flash with the mirrors of the concrete scenario. -/
def scenario : World := ⟨fun _ => 255, [], [], 0, 3, 512, 900⟩

/-! ## Logs of driver events -/

/-- The requests made of the driver, in order, completions left out. -/
def issuedOps : List Ev → List Op
  | [] => []
  | .issue op _ :: t => op :: issuedOps t
  | .complete _ _ :: t => issuedOps t

/-- The event is a call that erases the page starting at `page`. -/
def erasesPage (page : Nat) : Ev → Bool
  | .issue op _ =>
    decide (op.kind = .erase ∧ op.addr ≤ page ∧ page < op.addr + op.len * PAGE_SIZE)
  | .complete _ _ => false

/-- The event is a call that writes into the page starting at `page`. -/
def writesPage (page : Nat) : Ev → Bool
  | .issue op _ =>
    decide (op.kind = .write ∧ op.addr < page + PAGE_SIZE ∧ page < op.addr + op.len)
  | .complete _ _ => false

/-- The event is the successful completion of an erase of the page starting at `page`. -/
def erasedPage (page : Nat) : Ev → Bool
  | .issue _ _ => false
  | .complete op r =>
    decide (op.kind = .erase ∧ op.addr ≤ page ∧ page < op.addr + op.len * PAGE_SIZE ∧
      r = NRF_SUCCESS)

/-- Events of a fault-free `fstorage_write_impact` for the mirrors of `w`. -/
def persistTrace (w : World) : List Ev :=
  [ .issue (eraseOp 0x7d000) 0, .complete (eraseOp 0x7d000) 0,
    .issue (eraseOp 0x7e000) 0, .complete (eraseOp 0x7e000) 0,
    .issue (eraseOp 0x7f000) 0, .complete (eraseOp 0x7f000) 0,
    .issue (writeOp 0x7d000 (w.impact_count % 2 ^ 32)) 0,
    .complete (writeOp 0x7d000 (w.impact_count % 2 ^ 32)) 0,
    .issue (writeOp 0x7e000 (w.impact_score_latest % 2 ^ 32)) 0,
    .complete (writeOp 0x7e000 (w.impact_score_latest % 2 ^ 32)) 0,
    .issue (writeOp 0x7f000 (w.impact_score_max % 2 ^ 32)) 0,
    .complete (writeOp 0x7f000 (w.impact_score_max % 2 ^ 32)) 0 ]

/-- Events of a fault-free `fstorage_read_impact`. -/
def loadTrace : List Ev :=
  [Ev.issue (readOp 0x7d000) 0, Ev.issue (readOp 0x7e000) 0, Ev.issue (readOp 0x7f000) 0]

/-- The six requests of `fstorage_write_impact` for the mirrors of `w`. -/
def persistOps (w : World) : List Op :=
  [ eraseOp 0x7d000, eraseOp 0x7e000, eraseOp 0x7f000,
    writeOp 0x7d000 (w.impact_count % 2 ^ 32),
    writeOp 0x7e000 (w.impact_score_latest % 2 ^ 32),
    writeOp 0x7f000 (w.impact_score_max % 2 ^ 32) ]

/-- Outcome of making the requests `ops` one at a time of a driver that answers within the
fuel: the first refusal or failed completion is fatal. -/
def runOps (env : Env) : List Op → World → Result Unit
  | [], w => .ok () w
  | op :: ops, w =>
    if env.rc w.calls = 0 then
      if env.result w.calls = 0 then runOps env ops (served w op)
      else .fatal (aborted w op (env.result w.calls))
    else .fatal (refused w op (env.rc w.calls))

/-- Number of bytes a request covers from its address: whole pages for an erase, the byte
count for a write or a read. -/
def Op.extent (op : Op) : Nat :=
  match op.kind with
  | .erase => op.len * PAGE_SIZE
  | .write => op.len
  | .read => op.len

/-- The locations a request addresses lie inside the region `[start_addr, end_addr)`. -/
def InRegion (op : Op) : Prop :=
  start_addr ≤ op.addr ∧ op.addr + op.extent ≤ end_addr

instance (op : Op) : Decidable (InRegion op) :=
  inferInstanceAs (Decidable (start_addr ≤ op.addr ∧ op.addr + op.extent ≤ end_addr))

/-- Bookkeeping of outstanding requests along a log: a request may only be made when none
is outstanding, and a completion needs one. -/
def flightStep : Option Nat → Ev → Option Nat
  | some 0, .issue op rc => some (if op.kind = .read ∨ rc ≠ NRF_SUCCESS then 0 else 1)
  | some (n + 1), .complete _ _ => some n
  | _, _ => none

/-- Number of requests outstanding at the end of the log, or `none` when somewhere in the log
a request was made of a busy driver. -/
def outstanding (T : List Ev) : Option Nat :=
  T.foldl flightStep (some 0)

/-! ## Assertions about runs -/

/-- The outcome satisfies `Q` on normal return and `R` on either abnormal ending. -/
def Result.Sat {α : Type} (Q : α → World → Prop) (R : World → Prop) : Result α → Prop
  | .ok a w => Q a w
  | .fatal w => R w
  | .hung w => R w

/-- From every state satisfying `P`, the fragment ends in `Q` when it returns and in `R`
when it does not. -/
def Triple {α : Type} (P : World → Prop) (m : Prog α) (Q : α → World → Prop)
    (R : World → Prop) : Prop :=
  ∀ w, P w → (m w).Sat Q R

/-- Since the log `b`, every request was made of an idle driver, and `n` requests are
outstanding now. -/
def Ser (b : List Ev) (n : Nat) (w : World) : Prop :=
  ∃ T, w.trace = b ++ T ∧ outstanding T = some n ∧ w.queue.length = n

/-- The serialisation invariant with at most one request outstanding. -/
def SerFail (b : List Ev) (w : World) : Prop := Ser b 0 w ∨ Ser b 1 w

/-- Since the log `b`, every request addressed locations inside the region. -/
def Reg (b : List Ev) (w : World) : Prop :=
  ∃ T, w.trace = b ++ T ∧ ∀ op ∈ issuedOps T, InRegion op

/-! ## Theorems -/

@[simp] theorem andThen_ok {α β : Type} (a : α) (w : World) (f : α → World → Result β) :
    (Result.ok a w).andThen f = f a w := rfl

@[simp] theorem andThen_fatal {α β : Type} (w : World) (f : α → World → Result β) :
    (Result.fatal w : Result α).andThen f = .fatal w := rfl

@[simp] theorem andThen_hung {α β : Type} (w : World) (f : α → World → Result β) :
    (Result.hung w : Result α).andThen f = .hung w := rfl

@[simp] theorem bind_run {α β : Type} (m : Prog α) (f : α → Prog β) (w : World) :
    (m >>= f) w = (m w).andThen f := rfl

@[simp] theorem pure_run {α : Type} (a : α) (w : World) :
    (pure a : Prog α) w = .ok a w := rfl

theorem wait_idle (env : Env) (fuel : Nat) (w : World) (h : w.queue = []) :
    wait_for_flash_ready env fuel w = .ok () w := by
  cases fuel <;> simp [wait_for_flash_ready, nrf_fstorage_is_busy, h]

theorem wait_single (env : Env) (d : Nat) :
    ∀ (fuel : Nat) (w : World) (op : Op) (seq : Nat), w.queue = [⟨op, seq, d⟩] → d < fuel →
      wait_for_flash_ready env fuel w =
        if env.result seq = NRF_SUCCESS then .ok () (completed env w op seq)
        else .fatal (completed env w op seq) := by
  induction d with
  | zero =>
    intro fuel w op seq h hd
    obtain ⟨n, rfl⟩ : ∃ n, fuel = n + 1 := ⟨fuel - 1, by omega⟩
    by_cases hr : env.result seq = NRF_SUCCESS
    · simp [wait_for_flash_ready, nrf_fstorage_is_busy, h, sd_app_evt_wait,
        fstorage_evt_handler, APP_ERROR_CHECK, hr, completed, wait_idle]
    · simp [wait_for_flash_ready, nrf_fstorage_is_busy, h, sd_app_evt_wait,
        fstorage_evt_handler, APP_ERROR_CHECK, hr, completed]
  | succ d ih =>
    intro fuel w op seq h hd
    obtain ⟨n, rfl⟩ : ∃ n, fuel = n + 1 := ⟨fuel - 1, by omega⟩
    have hq : ({ w with queue := [⟨op, seq, d⟩] } : World).queue = [⟨op, seq, d⟩] := rfl
    have := ih n _ op seq hq (by omega)
    simp [wait_for_flash_ready, nrf_fstorage_is_busy, h, sd_app_evt_wait, this, completed]

theorem step_run (env : Env) (fuel : Nat) (op : Op) (w : World) (hq : w.queue = [])
    (hl : env.latency w.calls < fuel) {β : Type} (k : Prog β) :
    (submit env op >>= fun rc => APP_ERROR_CHECK rc >>= fun _ =>
      wait_for_flash_ready env fuel >>= fun _ => k) w =
    if env.rc w.calls = 0 then
      if env.result w.calls = 0 then k (served w op)
      else .fatal (aborted w op (env.result w.calls))
    else .fatal (refused w op (env.rc w.calls)) := by
  have hw := wait_single env (env.latency w.calls) fuel
    { w with calls := w.calls + 1, trace := w.trace ++ [Ev.issue op 0],
             queue := [⟨op, w.calls, env.latency w.calls⟩] } op w.calls rfl hl
  by_cases h1 : env.rc w.calls = 0
  · by_cases h2 : env.result w.calls = 0
    · simp [submit, APP_ERROR_CHECK, h1, h2, hq, completed, NRF_SUCCESS] at hw ⊢
      simp [hw, served, hq]
    · simp [submit, APP_ERROR_CHECK, h1, h2, hq, completed, NRF_SUCCESS] at hw ⊢
      simp [hw, aborted, hq]
  · simp [submit, APP_ERROR_CHECK, h1, hq, NRF_SUCCESS, refused]

theorem last_step_run (env : Env) (fuel : Nat) (op : Op) (w : World) (hq : w.queue = [])
    (hl : env.latency w.calls < fuel) :
    (submit env op >>= fun rc => APP_ERROR_CHECK rc >>= fun _ =>
      wait_for_flash_ready env fuel) w =
    if env.rc w.calls = 0 then
      if env.result w.calls = 0 then .ok () (served w op)
      else .fatal (aborted w op (env.result w.calls))
    else .fatal (refused w op (env.rc w.calls)) := by
  have hw := wait_single env (env.latency w.calls) fuel
    { w with calls := w.calls + 1, trace := w.trace ++ [Ev.issue op 0],
             queue := [⟨op, w.calls, env.latency w.calls⟩] } op w.calls rfl hl
  by_cases h1 : env.rc w.calls = 0
  · by_cases h2 : env.result w.calls = 0
    · simp [submit, APP_ERROR_CHECK, h1, h2, hq, completed, NRF_SUCCESS] at hw ⊢
      simp [hw, served, hq]
    · simp [submit, APP_ERROR_CHECK, h1, h2, hq, completed, NRF_SUCCESS] at hw ⊢
      simp [hw, aborted, hq]
  · simp [submit, APP_ERROR_CHECK, h1, hq, NRF_SUCCESS, refused]

@[simp] theorem served_queue (w : World) (op : Op) : (served w op).queue = w.queue := rfl
@[simp] theorem served_calls (w : World) (op : Op) : (served w op).calls = w.calls + 1 := rfl
@[simp] theorem served_trace (w : World) (op : Op) :
    (served w op).trace = w.trace ++ [Ev.issue op 0, Ev.complete op 0] := rfl
@[simp] theorem served_flash (w : World) (op : Op) : (served w op).flash = op.apply w.flash := rfl
@[simp] theorem served_impact_count (w : World) (op : Op) :
    (served w op).impact_count = w.impact_count := rfl
@[simp] theorem served_impact_score_latest (w : World) (op : Op) :
    (served w op).impact_score_latest = w.impact_score_latest := rfl
@[simp] theorem served_impact_score_max (w : World) (op : Op) :
    (served w op).impact_score_max = w.impact_score_max := rfl

theorem erase_eq (env : Env) (addr : Nat) :
    nrf_fstorage_erase env addr 1 = submit env (eraseOp addr) := rfl

theorem write_eq (env : Env) (addr v : Nat) :
    nrf_fstorage_write env addr (le_bytes32 v) = submit env (writeOp addr v) := rfl

@[simp] theorem get_impact_count_run {β : Type} (f : Nat → Prog β) (w : World) :
    (get_impact_count >>= f) w = f (w.impact_count % 2 ^ 32) w := rfl

@[simp] theorem get_impact_score_latest_run {β : Type} (f : Nat → Prog β) (w : World) :
    (get_impact_score_latest >>= f) w = f (w.impact_score_latest % 2 ^ 32) w := rfl

@[simp] theorem get_impact_score_max_run {β : Type} (f : Nat → Prog β) (w : World) :
    (get_impact_score_max >>= f) w = f (w.impact_score_max % 2 ^ 32) w := rfl

theorem write_impact_run (env : Env) (fuel : Nat) (h : FaultFree env fuel) (w : World)
    (hq : w.queue = []) :
    fstorage_write_impact env fuel w = .ok () (persisted w) := by
  simp [fstorage_write_impact, erase_eq, write_eq, step_run, last_step_run, hq, h.rc, h.result,
    h.latency, persisted, -bind_run]

theorem read_impact_cases (env : Env) (fuel : Nat) (w : World) (hq : w.queue = []) :
    fstorage_read_impact env fuel w =
      if env.rc w.calls = 0 then
        if env.rc (w.calls + 1) = 0 then
          if env.rc (w.calls + 2) = 0 then .ok () (loaded w)
          else .fatal (refused (loaded2 w) (readOp 0x7f000) (env.rc (w.calls + 2)))
        else .fatal (refused (loaded1 w) (readOp 0x7e000) (env.rc (w.calls + 1)))
      else .fatal (refused w (readOp 0x7d000) (env.rc w.calls)) := by
  by_cases h0 : env.rc w.calls = 0
  · by_cases h1 : env.rc (w.calls + 1) = 0
    · by_cases h2 : env.rc (w.calls + 2) = 0
      · simp [fstorage_read_impact, nrf_fstorage_read, APP_ERROR_CHECK, set_impact_count,
          set_impact_score_latest, set_impact_score_max, NRF_SUCCESS, h0, h1, h2, wait_idle, hq,
          loaded, loaded2, loaded1, wordAt, readOp]
      · simp [fstorage_read_impact, nrf_fstorage_read, APP_ERROR_CHECK, set_impact_count,
          set_impact_score_latest, set_impact_score_max, NRF_SUCCESS, h0, h1, h2,
          loaded2, loaded1, wordAt, readOp, refused]
    · simp [fstorage_read_impact, nrf_fstorage_read, APP_ERROR_CHECK, set_impact_count,
          set_impact_score_latest, set_impact_score_max, NRF_SUCCESS, h0, h1,
          loaded1, wordAt, readOp, refused]
  · simp [fstorage_read_impact, nrf_fstorage_read, APP_ERROR_CHECK, NRF_SUCCESS, h0, readOp,
      refused]

theorem read_impact_run (env : Env) (fuel : Nat) (h : FaultFree env fuel) (w : World)
    (hq : w.queue = []) :
    fstorage_read_impact env fuel w = .ok () (loaded w) := by
  simp [read_impact_cases env fuel w hq, h.rc]

theorem readBytes_four (flash : Nat → Fin 256) (a : Nat) :
    readBytes flash a 4 =
      [(flash a).val, (flash (a + 1)).val, (flash (a + 2)).val, (flash (a + 3)).val] := rfl

theorem progByte_erased (b : Nat) : progByte 255 b = ⟨b % 256, Nat.mod_lt _ (by decide)⟩ := by
  have h : (255 : Nat) &&& b = b % 256 := by
    have := Nat.and_pow_two_sub_one_eq_mod b 8
    rw [Nat.land_comm]
    simpa using this
  apply Fin.ext
  show (255 &&& b) % 256 = b % 256
  rw [h, Nat.mod_mod]

theorem le_word_le_bytes32 (v : Nat) (h : v < 2 ^ 32) : le_word (le_bytes32 v) = v := by
  simp only [le_bytes32, le_word]
  omega

theorem wordAt_lt (flash : Nat → Fin 256) (a : Nat) : wordAt flash a < 2 ^ 32 := by
  have h0 := (flash a).isLt
  have h1 := (flash (a + 1)).isLt
  have h2 := (flash (a + 2)).isLt
  have h3 := (flash (a + 3)).isLt
  simp only [wordAt, readBytes_four, le_word]
  omega

theorem persisted_byte (w : World) (a : Nat)
    (h : (0x7d004 ≤ a ∧ a < 0x7e000) ∨ (0x7e004 ≤ a ∧ a < 0x7f000) ∨
      (0x7f004 ≤ a ∧ a < 0x80000)) :
    (persisted w).flash a = 255 := by
  simp only [persisted, served_flash, Op.apply, eraseOp, writeOp, flashWrite, le_bytes32,
    flashErase, PAGE_SIZE, List.length_cons, List.length_nil]
  split_ifs <;> first | rfl | omega

theorem persisted_frame (w : World) (a : Nat) (h : a < 0x7d000 ∨ 0x80000 ≤ a) :
    (persisted w).flash a = w.flash a := by
  simp only [persisted, served_flash, Op.apply, eraseOp, writeOp, flashWrite, le_bytes32,
    flashErase, PAGE_SIZE, List.length_cons, List.length_nil]
  split_ifs <;> first | rfl | omega

theorem persisted_word0 (w : World) :
    wordAt (persisted w).flash 0x7d000 = w.impact_count % 2 ^ 32 := by
  have := le_word_le_bytes32 (w.impact_count % 2 ^ 32) (Nat.mod_lt _ (by decide))
  simpa [wordAt, readBytes_four, persisted, Op.apply, eraseOp, writeOp, flashWrite, le_bytes32,
    flashErase, PAGE_SIZE, progByte_erased] using this

theorem persisted_word1 (w : World) :
    wordAt (persisted w).flash 0x7e000 = w.impact_score_latest % 2 ^ 32 := by
  have := le_word_le_bytes32 (w.impact_score_latest % 2 ^ 32) (Nat.mod_lt _ (by decide))
  simpa [wordAt, readBytes_four, persisted, Op.apply, eraseOp, writeOp, flashWrite, le_bytes32,
    flashErase, PAGE_SIZE, progByte_erased] using this

theorem persisted_word2 (w : World) :
    wordAt (persisted w).flash 0x7f000 = w.impact_score_max % 2 ^ 32 := by
  have := le_word_le_bytes32 (w.impact_score_max % 2 ^ 32) (Nat.mod_lt _ (by decide))
  simpa [wordAt, readBytes_four, persisted, Op.apply, eraseOp, writeOp, flashWrite, le_bytes32,
    flashErase, PAGE_SIZE, progByte_erased] using this

theorem promptEnv_faultFree : FaultFree promptEnv 1 :=
  ⟨fun _ => rfl, fun _ => rfl, fun _ => Nat.lt_succ_self 0⟩

theorem slowEnv_faultFree : FaultFree slowEnv 3 :=
  ⟨fun _ => rfl, fun _ => rfl, fun _ => Nat.lt_succ_self 2⟩

theorem roundTrip_run (env : Env) (fuel : Nat) (h : FaultFree env fuel) (w : World)
    (hq : w.queue = []) :
    roundTrip env fuel w = .ok () (loaded (powerCycle (persisted w))) := by
  have hq1 : (powerCycle (persisted w)).queue = [] := by
    simpa [powerCycle, persisted] using hq
  simp [roundTrip, write_impact_run env fuel h w hq, read_impact_run env fuel h _ hq1]

theorem loaded_persisted (w v : World) (hf : v.flash = (persisted w).flash) :
    (loaded v).impact_count = w.impact_count % 2 ^ 8 ∧
    (loaded v).impact_score_latest = w.impact_score_latest % 2 ^ 16 ∧
    (loaded v).impact_score_max = w.impact_score_max % 2 ^ 16 := by
  have h0 := persisted_word0 w
  have h1 := persisted_word1 w
  have h2 := persisted_word2 w
  simp only [loaded, loaded2, loaded1, hf, h0, h1, h2]
  refine ⟨?_, ?_, ?_⟩ <;> omega

theorem assign_queue (r : Record) (v : Nat) (w : World) : (assign r v w).queue = w.queue := by
  cases r <;> rfl

theorem mirror_assign_self (r : Record) (v : Nat) (w : World) :
    mirror r (assign r v w) = v % 2 ^ mirrorBits r := by
  cases r <;> rfl

theorem mirror_assign_other (r r' : Record) (v : Nat) (w : World) (h : r' ≠ r) :
    mirror r' (assign r v w) = mirror r' w := by
  cases r <;> cases r' <;> first | rfl | exact absurd rfl h

theorem wellTyped_assign (r : Record) (v : Nat) (w : World) (h : WellTyped w) :
    WellTyped (assign r v w) := by
  obtain ⟨h0, h1, h2⟩ := h
  cases r
  · exact ⟨Nat.mod_lt _ (by decide), h1, h2⟩
  · exact ⟨h0, Nat.mod_lt _ (by decide), h2⟩
  · exact ⟨h0, h1, Nat.mod_lt _ (by decide)⟩

theorem powerCycle_flash (w : World) : (powerCycle w).flash = w.flash := rfl

theorem powerCycle_queue (w : World) : (powerCycle w).queue = w.queue := rfl

theorem mirror_ImpactCount (w : World) : mirror .ImpactCount w = w.impact_count := rfl

theorem mirror_LatestScore (w : World) : mirror .LatestScore w = w.impact_score_latest := rfl

theorem mirror_MaxScore (w : World) : mirror .MaxScore w = w.impact_score_max := rfl

theorem mirror_roundTrip (w : World) (ht : WellTyped w) (r : Record) :
    mirror r (loaded (powerCycle (persisted w))) = mirror r w := by
  obtain ⟨h0, h1, h2⟩ := ht
  obtain ⟨e0, e1, e2⟩ := loaded_persisted w (powerCycle (persisted w)) (powerCycle_flash _)
  cases r
  · rw [mirror_ImpactCount, mirror_ImpactCount, e0]
    exact Nat.mod_eq_of_lt h0
  · rw [mirror_LatestScore, mirror_LatestScore, e1]
    exact Nat.mod_eq_of_lt h1
  · rw [mirror_MaxScore, mirror_MaxScore, e2]
    exact Nat.mod_eq_of_lt h2

/-- C1, as stated, fails: the 32-bit value 300 assigned to the mirror of ImpactCount
(a `uint8_t`) does not come back from persist, power cycle, load; the mirror then holds 44. -/
theorem round_trip_32bit_counterexample :
    300 < 2 ^ 32 ∧
    ∃ w', roundTrip promptEnv 1 (assign .ImpactCount 300 scenario) = .ok () w' ∧
      mirror .ImpactCount w' = 44 ∧ mirror .ImpactCount w' ≠ 300 := by
  have hr := roundTrip_run promptEnv 1 promptEnv_faultFree (assign .ImpactCount 300 scenario) rfl
  have hl := loaded_persisted (assign .ImpactCount 300 scenario)
    (powerCycle (persisted (assign .ImpactCount 300 scenario))) rfl
  have h44 : mirror .ImpactCount
      (loaded (powerCycle (persisted (assign .ImpactCount 300 scenario)))) = 44 := by
    simp only [mirror, hl.1]
    rfl
  exact ⟨by decide, _, hr, h44, by rw [h44]; decide⟩

/-- C1 (amended): for every Record and every value `v` that fits the declared width of its
mirror (8 bits for ImpactCount, 16 bits for the two scores), assigning `v` to the mirror, then
a fault-free `fstorage_write_impact`, a power cycle resetting the mirrors, and
`fstorage_read_impact` return with that mirror equal to `v` and the other two mirrors equal to
the values they had when persisted. -/
theorem round_trip_within_width (env : Env) (fuel : Nat) (w : World) (r : Record) (v : Nat)
    (h : FaultFree env fuel) (hq : w.queue = []) (ht : WellTyped w)
    (hv : v < 2 ^ mirrorBits r) :
    ∃ w', roundTrip env fuel (assign r v w) = .ok () w' ∧ mirror r w' = v ∧
      ∀ r', r' ≠ r → mirror r' w' = mirror r' (assign r v w) ∧ mirror r' w' = mirror r' w := by
  refine ⟨_, roundTrip_run env fuel h _ ((assign_queue r v w).trans hq), ?_, ?_⟩
  · rw [mirror_roundTrip _ (wellTyped_assign r v w ht), mirror_assign_self, Nat.mod_eq_of_lt hv]
  · intro r' hr
    rw [mirror_roundTrip _ (wellTyped_assign r v w ht), mirror_assign_other r r' v w hr]
    exact ⟨rfl, rfl⟩

/-- The concrete scenario of C1: mirrors 3, 512, 900 survive persist, power cycle, load. -/
theorem round_trip_within_width_witness :
    FaultFree promptEnv 1 ∧ scenario.queue = [] ∧ WellTyped scenario ∧
    3 < 2 ^ mirrorBits .ImpactCount ∧
    ∃ w', roundTrip promptEnv 1 (assign .ImpactCount 3 scenario) = .ok () w' ∧
      mirror .ImpactCount w' = 3 ∧ mirror .LatestScore w' = 512 ∧ mirror .MaxScore w' = 900 := by
  have ht : WellTyped scenario := by
    refine ⟨?_, ?_, ?_⟩ <;> decide
  obtain ⟨w', hrun, h0, hrest⟩ := round_trip_within_width promptEnv 1 scenario .ImpactCount 3
    promptEnv_faultFree rfl ht (by decide)
  exact ⟨promptEnv_faultFree, rfl, ht, by decide, w', hrun, h0,
    (hrest .LatestScore (by decide)).2, (hrest .MaxScore (by decide)).2⟩

/-- C9: with the mirrors within their declared widths, a fault-free `fstorage_write_impact`
stores each value zero-extended to 32 bits at the base of its page, and a following
`fstorage_read_impact`, after the mirrors were overwritten with arbitrary values `x`, `y`, `z`,
restores all three mirrors to exactly the persisted values. -/
theorem round_trip_actual_widths (env : Env) (fuel : Nat) (w : World) (x y z : Nat)
    (h : FaultFree env fuel) (hq : w.queue = [])
    (h0 : w.impact_count ≤ 255) (h1 : w.impact_score_latest ≤ 65535)
    (h2 : w.impact_score_max ≤ 65535) :
    ∃ w1 w2, fstorage_write_impact env fuel w = .ok () w1 ∧
      wordAt w1.flash 0x7d000 = w.impact_count ∧
      wordAt w1.flash 0x7e000 = w.impact_score_latest ∧
      wordAt w1.flash 0x7f000 = w.impact_score_max ∧
      fstorage_read_impact env fuel
        { w1 with impact_count := x, impact_score_latest := y, impact_score_max := z } =
        .ok () w2 ∧
      w2.impact_count = w.impact_count ∧
      w2.impact_score_latest = w.impact_score_latest ∧
      w2.impact_score_max = w.impact_score_max := by
  have hq1 : ({ persisted w with
      impact_count := x, impact_score_latest := y, impact_score_max := z } : World).queue = [] := by
    simpa [persisted] using hq
  obtain ⟨e0, e1, e2⟩ := loaded_persisted w { persisted w with
      impact_count := x, impact_score_latest := y, impact_score_max := z } rfl
  refine ⟨_, _, write_impact_run env fuel h w hq, ?_, ?_, ?_,
    read_impact_run env fuel h _ hq1, ?_, ?_, ?_⟩
  · rw [persisted_word0]; omega
  · rw [persisted_word1]; omega
  · rw [persisted_word2]; omega
  · rw [e0]; omega
  · rw [e1]; omega
  · rw [e2]; omega

/-- C9 at the mirrors 200, 40000, 65535, overwritten with 1, 2, 3 before the load. -/
theorem round_trip_actual_widths_witness :
    FaultFree promptEnv 1 ∧
    ∃ w1 w2, fstorage_write_impact promptEnv 1 ⟨fun _ => 0, [], [], 0, 200, 40000, 65535⟩ =
        .ok () w1 ∧
      wordAt w1.flash 0x7d000 = 200 ∧ wordAt w1.flash 0x7e000 = 40000 ∧
      wordAt w1.flash 0x7f000 = 65535 ∧
      fstorage_read_impact promptEnv 1
        { w1 with impact_count := 1, impact_score_latest := 2, impact_score_max := 3 } =
        .ok () w2 ∧
      w2.impact_count = 200 ∧ w2.impact_score_latest = 40000 ∧ w2.impact_score_max = 65535 :=
  ⟨promptEnv_faultFree,
    round_trip_actual_widths promptEnv 1 ⟨fun _ => 0, [], [], 0, 200, 40000, 65535⟩ 1 2 3
      promptEnv_faultFree rfl (by decide) (by decide) (by decide)⟩

theorem persisted_trace (w : World) : (persisted w).trace = w.trace ++ persistTrace w := by
  simp [persisted, persistTrace]

theorem persisted_queue (w : World) : (persisted w).queue = w.queue := rfl

theorem persisted_mirrors (w : World) :
    (persisted w).impact_count = w.impact_count ∧
    (persisted w).impact_score_latest = w.impact_score_latest ∧
    (persisted w).impact_score_max = w.impact_score_max := ⟨rfl, rfl, rfl⟩

theorem erasesPage_erase (p a rc : Nat) :
    erasesPage p (Ev.issue (eraseOp a) rc) = decide (a ≤ p ∧ p < a + 4096) := by
  simp [erasesPage, eraseOp, PAGE_SIZE]

theorem erasesPage_write (p a v rc : Nat) :
    erasesPage p (Ev.issue (writeOp a v) rc) = false := by
  simp [erasesPage, writeOp]

theorem erasesPage_complete (p : Nat) (op : Op) (r : Nat) :
    erasesPage p (Ev.complete op r) = false := rfl

theorem writesPage_erase (p a rc : Nat) :
    writesPage p (Ev.issue (eraseOp a) rc) = false := by
  simp [writesPage, eraseOp]

theorem writesPage_write (p a v rc : Nat) :
    writesPage p (Ev.issue (writeOp a v) rc) = decide (a < p + 4096 ∧ p < a + 4) := by
  simp [writesPage, writeOp, PAGE_SIZE]

theorem writesPage_complete (p : Nat) (op : Op) (r : Nat) :
    writesPage p (Ev.complete op r) = false := rfl

theorem erasedPage_issue (p : Nat) (op : Op) (rc : Nat) :
    erasedPage p (Ev.issue op rc) = false := rfl

theorem erasedPage_erase (p a r : Nat) :
    erasedPage p (Ev.complete (eraseOp a) r) = decide (a ≤ p ∧ p < a + 4096 ∧ r = 0) := by
  simp [erasedPage, eraseOp, PAGE_SIZE, NRF_SUCCESS]

theorem erasedPage_write (p a v r : Nat) :
    erasedPage p (Ev.complete (writeOp a v) r) = false := by
  simp [erasedPage, writeOp]

/-- C2: in the events of a fault-free `fstorage_write_impact`, each of the three pages is
erased by exactly one call (one page, at the base of that page) and written by exactly one
call, and the completion of the erase comes strictly before the write call. -/
theorem erase_before_write (env : Env) (fuel : Nat) (w : World)
    (h : FaultFree env fuel) (hq : w.queue = []) :
    ∃ w' T, fstorage_write_impact env fuel w = .ok () w' ∧ w'.trace = w.trace ++ T ∧
      ∀ page ∈ [0x7d000, 0x7e000, 0x7f000],
        T.filter (erasesPage page) = [Ev.issue ⟨.erase, page, 1, []⟩ 0] ∧
        (T.filter (writesPage page)).length = 1 ∧
        (T.filter (erasedPage page)).length = 1 ∧
        T.findIdx (erasedPage page) < T.findIdx (writesPage page) ∧
        T.findIdx (writesPage page) < T.length := by
  refine ⟨_, _, write_impact_run env fuel h w hq, persisted_trace w, ?_⟩
  intro page hp
  simp only [List.mem_cons, List.mem_singleton, List.not_mem_nil, or_false] at hp
  rcases hp with rfl | rfl | rfl
  · simp [persistTrace, List.filter_cons, List.findIdx_cons, erasesPage_erase, erasesPage_write,
      erasesPage_complete, writesPage_erase, writesPage_write, writesPage_complete,
      erasedPage_issue, erasedPage_erase, erasedPage_write]
    rfl
  · simp [persistTrace, List.filter_cons, List.findIdx_cons, erasesPage_erase, erasesPage_write,
      erasesPage_complete, writesPage_erase, writesPage_write, writesPage_complete,
      erasedPage_issue, erasedPage_erase, erasedPage_write]
    rfl
  · simp [persistTrace, List.filter_cons, List.findIdx_cons, erasesPage_erase, erasesPage_write,
      erasesPage_complete, writesPage_erase, writesPage_write, writesPage_complete,
      erasedPage_issue, erasedPage_erase, erasedPage_write]
    rfl

/-- C2 on the concrete scenario, with a driver that completes each request after two unrelated
wake-ups. -/
theorem erase_before_write_witness :
    FaultFree slowEnv 3 ∧ scenario.queue = [] ∧
    (∃ w' T, fstorage_write_impact slowEnv 3 scenario = .ok () w' ∧
      w'.trace = scenario.trace ++ T ∧
      ∀ page ∈ [0x7d000, 0x7e000, 0x7f000],
        T.filter (erasesPage page) = [Ev.issue ⟨.erase, page, 1, []⟩ 0] ∧
        (T.filter (writesPage page)).length = 1 ∧
        (T.filter (erasedPage page)).length = 1 ∧
        T.findIdx (erasedPage page) < T.findIdx (writesPage page) ∧
        T.findIdx (writesPage page) < T.length) :=
  ⟨slowEnv_faultFree, rfl, erase_before_write slowEnv 3 scenario slowEnv_faultFree rfl⟩

theorem persisted_flash (w : World) :
    (persisted w).flash = persistedFlash w.flash (w.impact_count % 2 ^ 32)
      (w.impact_score_latest % 2 ^ 32) (w.impact_score_max % 2 ^ 32) := rfl

theorem apply_write_in (f : Nat → Fin 256) (a v x : Nat) (h : a ≤ x ∧ x < a + 4) :
    (writeOp a v).apply f x = progByte (f x) ((le_bytes32 v).getD (x - a) 0) := by
  simp only [Op.apply, writeOp, flashWrite, le_bytes32, List.length_cons, List.length_nil]
  exact if_pos h

theorem apply_write_out (f : Nat → Fin 256) (a v x : Nat) (h : ¬(a ≤ x ∧ x < a + 4)) :
    (writeOp a v).apply f x = f x := by
  simp only [Op.apply, writeOp, flashWrite, le_bytes32, List.length_cons, List.length_nil]
  exact if_neg h

theorem apply_erase_in (f : Nat → Fin 256) (a x : Nat) (h : a ≤ x ∧ x < a + 4096) :
    (eraseOp a).apply f x = 255 := by
  simp only [Op.apply, eraseOp, flashErase, PAGE_SIZE, Nat.one_mul]
  exact if_pos h

theorem apply_erase_out (f : Nat → Fin 256) (a x : Nat) (h : ¬(a ≤ x ∧ x < a + 4096)) :
    (eraseOp a).apply f x = f x := by
  simp only [Op.apply, eraseOp, flashErase, PAGE_SIZE, Nat.one_mul]
  exact if_neg h

theorem persistedFlash_apply (f : Nat → Fin 256) (a b c x : Nat) :
    persistedFlash f a b c x =
      if 0x7d000 ≤ x ∧ x < 0x7d000 + 4 then progByte 255 ((le_bytes32 a).getD (x - 0x7d000) 0)
      else if 0x7e000 ≤ x ∧ x < 0x7e000 + 4 then
        progByte 255 ((le_bytes32 b).getD (x - 0x7e000) 0)
      else if 0x7f000 ≤ x ∧ x < 0x7f000 + 4 then
        progByte 255 ((le_bytes32 c).getD (x - 0x7f000) 0)
      else if 0x7d000 ≤ x ∧ x < 0x80000 then 255
      else f x := by
  unfold persistedFlash
  by_cases h0 : 0x7d000 ≤ x ∧ x < 0x7d000 + 4
  · rw [if_pos h0, apply_write_out _ _ _ _ (by omega), apply_write_out _ _ _ _ (by omega),
      apply_write_in _ _ _ _ h0, apply_erase_out _ _ _ (by omega),
      apply_erase_out _ _ _ (by omega), apply_erase_in _ _ _ (by omega)]
  rw [if_neg h0]
  by_cases h1 : 0x7e000 ≤ x ∧ x < 0x7e000 + 4
  · rw [if_pos h1, apply_write_out _ _ _ _ (by omega), apply_write_in _ _ _ _ h1,
      apply_write_out _ _ _ _ (by omega), apply_erase_out _ _ _ (by omega),
      apply_erase_in _ _ _ (by omega)]
  rw [if_neg h1]
  by_cases h2 : 0x7f000 ≤ x ∧ x < 0x7f000 + 4
  · rw [if_pos h2, apply_write_in _ _ _ _ h2, apply_write_out _ _ _ _ (by omega),
      apply_write_out _ _ _ _ (by omega), apply_erase_in _ _ _ (by omega)]
  rw [if_neg h2, apply_write_out _ _ _ _ h2, apply_write_out _ _ _ _ h1,
    apply_write_out _ _ _ _ h0]
  by_cases h3 : 0x7f000 ≤ x ∧ x < 0x7f000 + 4096
  · rw [apply_erase_in _ _ _ h3, if_pos (by omega)]
  rw [apply_erase_out _ _ _ h3]
  by_cases h4 : 0x7e000 ≤ x ∧ x < 0x7e000 + 4096
  · rw [apply_erase_in _ _ _ h4, if_pos (by omega)]
  rw [apply_erase_out _ _ _ h4]
  by_cases h5 : 0x7d000 ≤ x ∧ x < 0x7d000 + 4096
  · rw [apply_erase_in _ _ _ h5, if_pos (by omega)]
  rw [apply_erase_out _ _ _ h5, if_neg (by omega)]

theorem persistedFlash_idem (flash : Nat → Fin 256) (a b c : Nat) :
    persistedFlash (persistedFlash flash a b c) a b c = persistedFlash flash a b c := by
  funext x
  rw [persistedFlash_apply (persistedFlash flash a b c), persistedFlash_apply flash]
  by_cases h0 : 0x7d000 ≤ x ∧ x < 0x7d000 + 4
  · rw [if_pos h0, if_pos h0]
  rw [if_neg h0, if_neg h0]
  by_cases h1 : 0x7e000 ≤ x ∧ x < 0x7e000 + 4
  · rw [if_pos h1, if_pos h1]
  rw [if_neg h1, if_neg h1]
  by_cases h2 : 0x7f000 ≤ x ∧ x < 0x7f000 + 4
  · rw [if_pos h2, if_pos h2]
  rw [if_neg h2, if_neg h2]
  by_cases h3 : 0x7d000 ≤ x ∧ x < 0x80000
  · rw [if_pos h3, if_pos h3]
  rw [if_neg h3, if_neg h3]

/-- C5, as stated, fails: on the concrete scenario the second request made of the driver is
the erase of page 0x7e000, not the write at 0x7d000, so the requests are not
erase/write pairs Record by Record. -/
theorem per_record_sequencing_counterexample :
    ∃ w', fstorage_write_impact promptEnv 1 scenario = .ok () w' ∧
      (issuedOps w'.trace)[1]? = some ⟨.erase, 0x7e000, 1, []⟩ ∧
      issuedOps w'.trace ≠
        [ ⟨.erase, 0x7d000, 1, []⟩, ⟨.write, 0x7d000, 4, le_bytes32 3⟩,
          ⟨.erase, 0x7e000, 1, []⟩, ⟨.write, 0x7e000, 4, le_bytes32 512⟩,
          ⟨.erase, 0x7f000, 1, []⟩, ⟨.write, 0x7f000, 4, le_bytes32 900⟩ ] := by
  refine ⟨_, write_impact_run promptEnv 1 promptEnv_faultFree scenario rfl, ?_, ?_⟩
  · rw [persisted_trace]
    rfl
  · rw [persisted_trace]
    decide

/-- C5 (amended): a fault-free `fstorage_write_impact` works in two passes over the Records in
the fixed order ImpactCount, LatestScore, MaxScore: first erase(page, 1) and wait for each of
the three pages, then write(address, 4-byte value of the mirror) and wait for each of the
three Records; every request is completed before the next one is made. -/
theorem two_pass_sequencing (env : Env) (fuel : Nat) (w : World)
    (h : FaultFree env fuel) (hq : w.queue = []) :
    ∃ w' T, fstorage_write_impact env fuel w = .ok () w' ∧ w'.trace = w.trace ++ T ∧
      issuedOps T =
        [ ⟨.erase, 0x7d000, 1, []⟩, ⟨.erase, 0x7e000, 1, []⟩, ⟨.erase, 0x7f000, 1, []⟩,
          ⟨.write, 0x7d000, 4, le_bytes32 (w.impact_count % 2 ^ 32)⟩,
          ⟨.write, 0x7e000, 4, le_bytes32 (w.impact_score_latest % 2 ^ 32)⟩,
          ⟨.write, 0x7f000, 4, le_bytes32 (w.impact_score_max % 2 ^ 32)⟩ ] ∧
      T = (issuedOps T).flatMap (fun op => [Ev.issue op 0, Ev.complete op 0]) := by
  refine ⟨_, _, write_impact_run env fuel h w hq, persisted_trace w, ?_, ?_⟩
  · rfl
  · rfl

/-- C5 (amended) on the concrete scenario, with a driver that completes each request after two
unrelated wake-ups. -/
theorem two_pass_sequencing_witness :
    FaultFree slowEnv 3 ∧ scenario.queue = [] ∧
    (∃ w' T, fstorage_write_impact slowEnv 3 scenario = .ok () w' ∧
      w'.trace = scenario.trace ++ T ∧
      issuedOps T =
        [ ⟨.erase, 0x7d000, 1, []⟩, ⟨.erase, 0x7e000, 1, []⟩, ⟨.erase, 0x7f000, 1, []⟩,
          ⟨.write, 0x7d000, 4, le_bytes32 (scenario.impact_count % 2 ^ 32)⟩,
          ⟨.write, 0x7e000, 4, le_bytes32 (scenario.impact_score_latest % 2 ^ 32)⟩,
          ⟨.write, 0x7f000, 4, le_bytes32 (scenario.impact_score_max % 2 ^ 32)⟩ ] ∧
      T = (issuedOps T).flatMap (fun op => [Ev.issue op 0, Ev.complete op 0])) :=
  ⟨slowEnv_faultFree, rfl, two_pass_sequencing slowEnv 3 scenario slowEnv_faultFree rfl⟩

/-- C7: when a fault-free `fstorage_write_impact` returns, the word at the base of each of the
three pages is the mirror value as a 32-bit unsigned integer, every other byte of the three
pages is 0xFF, the driver is idle and the mirrors are unchanged. -/
theorem persist_postcondition (env : Env) (fuel : Nat) (w : World)
    (h : FaultFree env fuel) (hq : w.queue = []) :
    ∃ w', fstorage_write_impact env fuel w = .ok () w' ∧
      wordAt w'.flash 0x7d000 = w.impact_count % 2 ^ 32 ∧
      wordAt w'.flash 0x7e000 = w.impact_score_latest % 2 ^ 32 ∧
      wordAt w'.flash 0x7f000 = w.impact_score_max % 2 ^ 32 ∧
      (∀ a, (0x7d000 + 4 ≤ a ∧ a < 0x7d000 + PAGE_SIZE) ∨
            (0x7e000 + 4 ≤ a ∧ a < 0x7e000 + PAGE_SIZE) ∨
            (0x7f000 + 4 ≤ a ∧ a < 0x7f000 + PAGE_SIZE) → w'.flash a = 255) ∧
      nrf_fstorage_is_busy w' = false ∧
      w'.impact_count = w.impact_count ∧
      w'.impact_score_latest = w.impact_score_latest ∧
      w'.impact_score_max = w.impact_score_max := by
  refine ⟨_, write_impact_run env fuel h w hq, persisted_word0 w, persisted_word1 w,
    persisted_word2 w, ?_, ?_, rfl, rfl, rfl⟩
  · intro a ha
    exact persisted_byte w a (by simpa [PAGE_SIZE] using ha)
  · simp [nrf_fstorage_is_busy, persisted_queue, hq]

/-- C7 on the concrete scenario, with a driver that completes each request after two unrelated
wake-ups. -/
theorem persist_postcondition_witness :
    FaultFree slowEnv 3 ∧ scenario.queue = [] ∧
    (∃ w', fstorage_write_impact slowEnv 3 scenario = .ok () w' ∧
      wordAt w'.flash 0x7d000 = scenario.impact_count % 2 ^ 32 ∧
      wordAt w'.flash 0x7e000 = scenario.impact_score_latest % 2 ^ 32 ∧
      wordAt w'.flash 0x7f000 = scenario.impact_score_max % 2 ^ 32 ∧
      (∀ a, (0x7d000 + 4 ≤ a ∧ a < 0x7d000 + PAGE_SIZE) ∨
            (0x7e000 + 4 ≤ a ∧ a < 0x7e000 + PAGE_SIZE) ∨
            (0x7f000 + 4 ≤ a ∧ a < 0x7f000 + PAGE_SIZE) → w'.flash a = 255) ∧
      nrf_fstorage_is_busy w' = false ∧
      w'.impact_count = scenario.impact_count ∧
      w'.impact_score_latest = scenario.impact_score_latest ∧
      w'.impact_score_max = scenario.impact_score_max) :=
  ⟨slowEnv_faultFree, rfl, persist_postcondition slowEnv 3 scenario slowEnv_faultFree rfl⟩

/-- C8: two fault-free calls of `fstorage_write_impact` in succession with unchanged mirrors
each make the full cycle of 3 erases and 3 writes (12 requests in total), the events of the
second call equal those of the first, and the flash contents after the second call equal
those after the first. -/
theorem persist_twice (env : Env) (fuel : Nat) (w : World)
    (h : FaultFree env fuel) (hq : w.queue = []) :
    ∃ w1 w2 T, fstorage_write_impact env fuel w = .ok () w1 ∧
      fstorage_write_impact env fuel w1 = .ok () w2 ∧
      w1.trace = w.trace ++ T ∧ w2.trace = w1.trace ++ T ∧
      ((issuedOps T).filter (fun op => op.kind = .erase)).length = 3 ∧
      ((issuedOps T).filter (fun op => op.kind = .write)).length = 3 ∧
      (issuedOps T).length = 6 ∧
      (issuedOps (T ++ T)).length = 12 ∧
      w2.flash = w1.flash := by
  have hq1 : (persisted w).queue = [] := hq
  refine ⟨_, _, persistTrace w, write_impact_run env fuel h w hq,
    write_impact_run env fuel h _ hq1, persisted_trace w, ?_, ?_, ?_, ?_, ?_, ?_⟩
  · rw [persisted_trace (persisted w)]
    rfl
  · simp [persistTrace, issuedOps, eraseOp, writeOp]
  · simp [persistTrace, issuedOps, eraseOp, writeOp]
  · rfl
  · rfl
  · rw [persisted_flash (persisted w), persisted_flash w]
    exact persistedFlash_idem _ _ _ _

/-- C8 on the concrete scenario, with a driver that completes each request after two unrelated
wake-ups. -/
theorem persist_twice_witness :
    FaultFree slowEnv 3 ∧ scenario.queue = [] ∧
    (∃ w1 w2 T, fstorage_write_impact slowEnv 3 scenario = .ok () w1 ∧
      fstorage_write_impact slowEnv 3 w1 = .ok () w2 ∧
      w1.trace = scenario.trace ++ T ∧ w2.trace = w1.trace ++ T ∧
      ((issuedOps T).filter (fun op => op.kind = .erase)).length = 3 ∧
      ((issuedOps T).filter (fun op => op.kind = .write)).length = 3 ∧
      (issuedOps T).length = 6 ∧
      (issuedOps (T ++ T)).length = 12 ∧
      w2.flash = w1.flash) :=
  ⟨slowEnv_faultFree, rfl, persist_twice slowEnv 3 scenario slowEnv_faultFree rfl⟩

theorem wordAt_erased (a : Nat) : wordAt (fun _ => 255) a = 0xFFFFFFFF := by
  have h : ((255 : Fin 256) : Nat) = 255 := rfl
  simp only [wordAt, readBytes_four, le_word, h]

/-- C10: a fault-free `fstorage_read_impact` sets `impact_count` to the word at 0x7d000 modulo
2^8 and the two scores to the words at 0x7e000 and 0x7f000 modulo 2^16, makes three read
requests and no erase or write, and leaves the flash unchanged; on erased flash the mirrors
become 255, 65535 and 65535. -/
theorem load_truncates (env : Env) (fuel : Nat) (w : World)
    (h : FaultFree env fuel) (hq : w.queue = []) :
    (∃ w', fstorage_read_impact env fuel w = .ok () w' ∧
      w'.impact_count = wordAt w.flash 0x7d000 % 2 ^ 8 ∧
      w'.impact_score_latest = wordAt w.flash 0x7e000 % 2 ^ 16 ∧
      w'.impact_score_max = wordAt w.flash 0x7f000 % 2 ^ 16 ∧
      w'.flash = w.flash ∧
      w'.trace = w.trace ++ [Ev.issue ⟨.read, 0x7d000, 4, []⟩ 0,
        Ev.issue ⟨.read, 0x7e000, 4, []⟩ 0, Ev.issue ⟨.read, 0x7f000, 4, []⟩ 0]) ∧
    (∃ w', fstorage_read_impact env fuel { w with flash := fun _ => 255 } = .ok () w' ∧
      wordAt (fun _ => 255) 0x7d000 = 0xFFFFFFFF ∧
      w'.impact_count = 255 ∧ w'.impact_score_latest = 65535 ∧ w'.impact_score_max = 65535) := by
  have hlt0 := wordAt_lt w.flash 0x7d000
  have hlt1 := wordAt_lt w.flash 0x7e000
  have hlt2 := wordAt_lt w.flash 0x7f000
  refine ⟨⟨_, read_impact_run env fuel h w hq, ?_, ?_, ?_, rfl, rfl⟩,
    ⟨_, read_impact_run env fuel h _ hq, wordAt_erased _, ?_, ?_, ?_⟩⟩
  · show wordAt w.flash 0x7d000 % 2 ^ 32 % 2 ^ 8 = _
    omega
  · show wordAt w.flash 0x7e000 % 2 ^ 32 % 2 ^ 16 = _
    omega
  · show wordAt w.flash 0x7f000 % 2 ^ 32 % 2 ^ 16 = _
    omega
  · show wordAt (fun _ => 255) 0x7d000 % 2 ^ 32 % 2 ^ 8 = 255
    rw [wordAt_erased]
    norm_num
  · show wordAt (fun _ => 255) 0x7e000 % 2 ^ 32 % 2 ^ 16 = 65535
    rw [wordAt_erased]
    norm_num
  · show wordAt (fun _ => 255) 0x7f000 % 2 ^ 32 % 2 ^ 16 = 65535
    rw [wordAt_erased]
    norm_num


/-- C10 on the concrete scenario (erased flash), with a fault-free driver. -/
theorem load_truncates_witness :
    FaultFree slowEnv 3 ∧ scenario.queue = [] ∧
    ((∃ w', fstorage_read_impact slowEnv 3 scenario = .ok () w' ∧
      w'.impact_count = wordAt scenario.flash 0x7d000 % 2 ^ 8 ∧
      w'.impact_score_latest = wordAt scenario.flash 0x7e000 % 2 ^ 16 ∧
      w'.impact_score_max = wordAt scenario.flash 0x7f000 % 2 ^ 16 ∧
      w'.flash = scenario.flash ∧
      w'.trace = scenario.trace ++ [Ev.issue ⟨.read, 0x7d000, 4, []⟩ 0,
        Ev.issue ⟨.read, 0x7e000, 4, []⟩ 0, Ev.issue ⟨.read, 0x7f000, 4, []⟩ 0]) ∧
    (∃ w', fstorage_read_impact slowEnv 3 { scenario with flash := fun _ => 255 } = .ok () w' ∧
      wordAt (fun _ => 255) 0x7d000 = 0xFFFFFFFF ∧
      w'.impact_count = 255 ∧ w'.impact_score_latest = 65535 ∧ w'.impact_score_max = 65535)) :=
  ⟨slowEnv_faultFree, rfl, load_truncates slowEnv 3 scenario slowEnv_faultFree rfl⟩

theorem write_impact_eq_runOps (env : Env) (fuel : Nat) (w : World) (hq : w.queue = [])
    (hl : ∀ n, env.latency n < fuel) :
    fstorage_write_impact env fuel w = runOps env (persistOps w) w := by
  simp [fstorage_write_impact, erase_eq, write_eq, step_run, last_step_run, hq, hl, runOps,
    persistOps, -bind_run]

theorem issuedOps_append (T U : List Ev) : issuedOps (T ++ U) = issuedOps T ++ issuedOps U := by
  induction T with
  | nil => rfl
  | cons e T ih => cases e <;> simp [issuedOps, ih]

theorem runOps_fault (env : Env) :
    ∀ (ops : List Op) (k : Nat) (w : World), k < ops.length →
      (∀ j, j < k → env.rc (w.calls + j) = 0 ∧ env.result (w.calls + j) = 0) →
      (env.rc (w.calls + k) ≠ 0 ∨ env.result (w.calls + k) ≠ 0) →
      ∃ w' T, runOps env ops w = .fatal w' ∧ w'.trace = w.trace ++ T ∧
        issuedOps T = ops.take (k + 1) ∧ w'.impact_count = w.impact_count ∧
        w'.impact_score_latest = w.impact_score_latest ∧
        w'.impact_score_max = w.impact_score_max := by
  intro ops
  induction ops with
  | nil => intro k w hk; simp at hk
  | cons op ops ih =>
    intro k w hk hpre hfail
    cases k with
    | zero =>
      by_cases h1 : env.rc w.calls = 0
      · have h2 : env.result w.calls ≠ 0 := by
          rcases hfail with h | h
          · exact absurd h1 h
          · exact h
        exact ⟨aborted w op (env.result w.calls),
          [Ev.issue op 0, Ev.complete op (env.result w.calls)],
          by simp [runOps, h1, h2], rfl, rfl, rfl, rfl, rfl⟩
      · exact ⟨refused w op (env.rc w.calls), [Ev.issue op (env.rc w.calls)],
          by simp [runOps, h1], rfl, rfl, rfl, rfl, rfl⟩
    | succ k =>
      have h0 : env.rc w.calls = 0 ∧ env.result w.calls = 0 := by
        simpa using hpre 0 (Nat.succ_pos k)
      have hpre' : ∀ j, j < k →
          env.rc ((served w op).calls + j) = 0 ∧ env.result ((served w op).calls + j) = 0 := by
        intro j hj
        have := hpre (j + 1) (Nat.succ_lt_succ hj)
        simpa [Nat.add_assoc, Nat.add_comm 1 j] using this
      have hfail' : env.rc ((served w op).calls + k) ≠ 0 ∨
          env.result ((served w op).calls + k) ≠ 0 := by
        simpa [Nat.add_assoc, Nat.add_comm 1 k] using hfail
      obtain ⟨w', T, hrun, htr, hops, hm0, hm1, hm2⟩ :=
        ih k (served w op) (Nat.lt_of_succ_lt_succ hk) hpre' hfail'
      refine ⟨w', [Ev.issue op 0, Ev.complete op 0] ++ T, ?_, ?_, ?_, hm0, hm1, hm2⟩
      · simpa [runOps, h0.1, h0.2] using hrun
      · simpa [List.append_assoc] using htr
      · simp [issuedOps, hops]

theorem write_impact_fault (env : Env) (fuel : Nat) (w : World) (k : Nat)
    (hq : w.queue = []) (hl : ∀ n, env.latency n < fuel) (hk : 1 ≤ k ∧ k ≤ 6)
    (hpre : ∀ j, j + 1 < k → env.rc (w.calls + j) = 0 ∧ env.result (w.calls + j) = 0)
    (hfail : env.rc (w.calls + (k - 1)) ≠ 0 ∨ env.result (w.calls + (k - 1)) ≠ 0) :
    ∃ w' T, fstorage_write_impact env fuel w = .fatal w' ∧ w'.trace = w.trace ++ T ∧
      issuedOps T = (issuedOps (persistTrace w)).take k ∧
      w'.impact_count = w.impact_count ∧ w'.impact_score_latest = w.impact_score_latest ∧
      w'.impact_score_max = w.impact_score_max := by
  obtain ⟨w', T, hrun, htr, hops, hm⟩ := runOps_fault env (persistOps w) (k - 1) w
    (by simp [persistOps]; omega) (fun j hj => hpre j (by omega)) hfail
  refine ⟨w', T, (write_impact_eq_runOps env fuel w hq hl).trans hrun, htr, ?_, hm⟩
  rw [hops, show k - 1 + 1 = k by omega]
  rfl

theorem read_impact_fault (env : Env) (fuel : Nat) (w : World) (k : Nat)
    (hq : w.queue = []) (hk : 1 ≤ k ∧ k ≤ 3)
    (hpre : ∀ j, j + 1 < k → env.rc (w.calls + j) = 0)
    (hfail : env.rc (w.calls + (k - 1)) ≠ 0) :
    ∃ w' T, fstorage_read_impact env fuel w = .fatal w' ∧ w'.trace = w.trace ++ T ∧
      issuedOps T = (issuedOps loadTrace).take k ∧
      (k ≤ 1 → w'.impact_count = w.impact_count) ∧
      (k ≤ 2 → w'.impact_score_latest = w.impact_score_latest) ∧
      w'.impact_score_max = w.impact_score_max := by
  obtain ⟨h1, h3⟩ := hk
  rw [read_impact_cases env fuel w hq]
  interval_cases k
  · have hf : env.rc w.calls ≠ 0 := by simpa using hfail
    exact ⟨refused w (readOp 0x7d000) (env.rc w.calls),
      [Ev.issue (readOp 0x7d000) (env.rc w.calls)], by simp [hf], rfl, rfl,
      fun _ => rfl, fun _ => rfl, rfl⟩
  · have h0 : env.rc w.calls = 0 := by simpa using hpre 0 (by omega)
    have hf : env.rc (w.calls + 1) ≠ 0 := by simpa using hfail
    exact ⟨refused (loaded1 w) (readOp 0x7e000) (env.rc (w.calls + 1)),
      [Ev.issue (readOp 0x7d000) 0, Ev.issue (readOp 0x7e000) (env.rc (w.calls + 1))],
      by simp [h0, hf], by simp [refused, loaded1], rfl,
      fun h => absurd h (by decide), fun _ => rfl, rfl⟩
  · have h0 : env.rc w.calls = 0 := by simpa using hpre 0 (by omega)
    have h1 : env.rc (w.calls + 1) = 0 := by simpa using hpre 1 (by omega)
    have hf : env.rc (w.calls + 2) ≠ 0 := by simpa using hfail
    exact ⟨refused (loaded2 w) (readOp 0x7f000) (env.rc (w.calls + 2)),
      [Ev.issue (readOp 0x7d000) 0, Ev.issue (readOp 0x7e000) 0,
        Ev.issue (readOp 0x7f000) (env.rc (w.calls + 2))],
      by simp [h0, h1, hf], by simp [refused, loaded2], rfl,
      fun h => absurd h (by decide), fun h => absurd h (by decide), rfl⟩

/-- C3: run from an idle driver whose k-th request is the first to report a code other than
`NRF_SUCCESS` (as the return code of the call, or for erase and write as the result of the
completion event), `fstorage_write_impact` and `fstorage_read_impact` end in the fatal state;
the requests made are exactly the first k requests of the fault-free run; the mirrors are not
modified by the failed persist, and a failed k-th read leaves the mirror of that Record and of
all later Records unmodified. -/
theorem fatal_on_error (envW envR env0 : Env) (fuel fuel0 : Nat) (w : World) (kw kr : Nat)
    (hq : w.queue = []) (h0 : FaultFree env0 fuel0)
    (hlat : ∀ n, envW.latency n < fuel)
    (hkw : 1 ≤ kw ∧ kw ≤ 6)
    (hpreW : ∀ j, j + 1 < kw → envW.rc (w.calls + j) = 0 ∧ envW.result (w.calls + j) = 0)
    (hfailW : envW.rc (w.calls + (kw - 1)) ≠ 0 ∨ envW.result (w.calls + (kw - 1)) ≠ 0)
    (hkr : 1 ≤ kr ∧ kr ≤ 3)
    (hpreR : ∀ j, j + 1 < kr → envR.rc (w.calls + j) = 0)
    (hfailR : envR.rc (w.calls + (kr - 1)) ≠ 0) :
    (∃ w' T T0, fstorage_write_impact envW fuel w = .fatal w' ∧ w'.trace = w.trace ++ T ∧
      (fstorage_write_impact env0 fuel0 w).world.trace = w.trace ++ T0 ∧
      issuedOps T = (issuedOps T0).take kw ∧ (issuedOps T).length = kw ∧
      w'.impact_count = w.impact_count ∧ w'.impact_score_latest = w.impact_score_latest ∧
      w'.impact_score_max = w.impact_score_max) ∧
    (∃ w' T T0, fstorage_read_impact envR fuel w = .fatal w' ∧ w'.trace = w.trace ++ T ∧
      (fstorage_read_impact env0 fuel0 w).world.trace = w.trace ++ T0 ∧
      issuedOps T = (issuedOps T0).take kr ∧ (issuedOps T).length = kr ∧
      (kr ≤ 1 → w'.impact_count = w.impact_count) ∧
      (kr ≤ 2 → w'.impact_score_latest = w.impact_score_latest) ∧
      w'.impact_score_max = w.impact_score_max) := by
  constructor
  · obtain ⟨w', T, hrun, htr, hops, hm⟩ :=
      write_impact_fault envW fuel w kw hq hlat hkw hpreW hfailW
    refine ⟨w', T, persistTrace w, hrun, htr, ?_, hops, ?_, hm⟩
    · rw [write_impact_run env0 fuel0 h0 w hq]
      exact persisted_trace w
    · rw [hops]
      simp [persistTrace, issuedOps]
      omega
  · obtain ⟨w', T, hrun, htr, hops, hm⟩ := read_impact_fault envR fuel w kr hq hkr hpreR hfailR
    refine ⟨w', T, loadTrace, hrun, htr, ?_, hops, ?_, hm⟩
    · rw [read_impact_run env0 fuel0 h0 w hq]
      rfl
    · rw [hops]
      simp [loadTrace, issuedOps]
      omega

/-- C3 on the concrete scenario: the completion of the second request (the erase of page
0x7e000) fails during the persist, and the second read is refused during the load. -/
theorem fatal_on_error_witness :
    scenario.queue = [] ∧ FaultFree promptEnv 1 ∧
    (failingCompletionEnv.rc (scenario.calls + (2 - 1)) ≠ 0 ∨
      failingCompletionEnv.result (scenario.calls + (2 - 1)) ≠ 0) ∧
    failingCallEnv.rc (scenario.calls + (2 - 1)) ≠ 0 ∧
    ((∃ w' T T0, fstorage_write_impact failingCompletionEnv 1 scenario = .fatal w' ∧
      w'.trace = scenario.trace ++ T ∧
      (fstorage_write_impact promptEnv 1 scenario).world.trace = scenario.trace ++ T0 ∧
      issuedOps T = (issuedOps T0).take 2 ∧ (issuedOps T).length = 2 ∧
      w'.impact_count = scenario.impact_count ∧
      w'.impact_score_latest = scenario.impact_score_latest ∧
      w'.impact_score_max = scenario.impact_score_max) ∧
    (∃ w' T T0, fstorage_read_impact failingCallEnv 1 scenario = .fatal w' ∧
      w'.trace = scenario.trace ++ T ∧
      (fstorage_read_impact promptEnv 1 scenario).world.trace = scenario.trace ++ T0 ∧
      issuedOps T = (issuedOps T0).take 2 ∧ (issuedOps T).length = 2 ∧
      (2 ≤ 1 → w'.impact_count = scenario.impact_count) ∧
      (2 ≤ 2 → w'.impact_score_latest = scenario.impact_score_latest) ∧
      w'.impact_score_max = scenario.impact_score_max)) :=
  ⟨rfl, promptEnv_faultFree, Or.inr (by decide), by decide,
    fatal_on_error failingCompletionEnv failingCallEnv promptEnv 1 1 scenario 2 2 rfl
      promptEnv_faultFree (fun _ => Nat.lt_succ_self 0) (by decide)
      (fun j hj => by
        obtain rfl : j = 0 := by omega
        exact ⟨rfl, rfl⟩)
      (Or.inr (by decide)) (by decide)
      (fun j hj => by
        obtain rfl : j = 0 := by omega
        rfl)
      (by decide)⟩

theorem Triple.bind {α β : Type} {P : World → Prop} {m : Prog α} {Q : α → World → Prop}
    {R : World → Prop} {f : α → Prog β} {Q' : β → World → Prop}
    (hm : Triple P m Q R) (hf : ∀ a, Triple (Q a) (f a) Q' R) :
    Triple P (m >>= f) Q' R := by
  intro w hw
  have h := hm w hw
  show ((m w).andThen f).Sat Q' R
  cases hmw : m w with
  | ok a w1 =>
    rw [hmw] at h
    exact hf a w1 h
  | fatal w1 =>
    rw [hmw] at h
    exact h
  | hung w1 =>
    rw [hmw] at h
    exact h

theorem outstanding_snoc (T : List Ev) (e : Ev) :
    outstanding (T ++ [e]) = flightStep (outstanding T) e := by
  simp [outstanding, List.foldl_append]

theorem wait_busy_zero (env : Env) (w : World) (p : Pending) (hp : w.queue = [p]) :
    wait_for_flash_ready env 0 w = .hung w := by
  simp [wait_for_flash_ready, nrf_fstorage_is_busy, hp]

theorem wait_busy_delay (env : Env) (fuel : Nat) (w : World) (op : Op) (seq d : Nat)
    (hp : w.queue = [⟨op, seq, d + 1⟩]) :
    wait_for_flash_ready env (fuel + 1) w =
      wait_for_flash_ready env fuel { w with queue := [⟨op, seq, d⟩] } := by
  simp [wait_for_flash_ready, nrf_fstorage_is_busy, hp, sd_app_evt_wait]

theorem wait_busy_done (env : Env) (fuel : Nat) (w : World) (op : Op) (seq : Nat)
    (hp : w.queue = [⟨op, seq, 0⟩]) (hr : env.result seq = NRF_SUCCESS) :
    wait_for_flash_ready env (fuel + 1) w =
      wait_for_flash_ready env fuel (completed env w op seq) := by
  simp [wait_for_flash_ready, nrf_fstorage_is_busy, hp, sd_app_evt_wait, fstorage_evt_handler,
    APP_ERROR_CHECK, hr, completed]

theorem wait_busy_failed (env : Env) (fuel : Nat) (w : World) (op : Op) (seq : Nat)
    (hp : w.queue = [⟨op, seq, 0⟩]) (hr : env.result seq ≠ NRF_SUCCESS) :
    wait_for_flash_ready env (fuel + 1) w = .fatal (completed env w op seq) := by
  simp [wait_for_flash_ready, nrf_fstorage_is_busy, hp, sd_app_evt_wait, fstorage_evt_handler,
    APP_ERROR_CHECK, hr, completed]

theorem completed_ser (env : Env) (b : List Ev) (w : World) (op : Op) (seq : Nat)
    (h : Ser b 1 w) : Ser b 0 (completed env w op seq) := by
  obtain ⟨T, ht, ho, _⟩ := h
  refine ⟨T ++ [Ev.complete op (env.result seq)], ?_, ?_, rfl⟩
  · show w.trace ++ [Ev.complete op (env.result seq)] = _
    rw [ht, List.append_assoc]
  · rw [outstanding_snoc, ho]
    rfl

theorem wait_ser (env : Env) (b : List Ev) :
    ∀ (fuel : Nat) (w : World), SerFail b w →
      (wait_for_flash_ready env fuel w).Sat (fun _ => Ser b 0) (SerFail b) := by
  intro fuel
  induction fuel with
  | zero =>
    intro w hw
    rcases hw with h0 | h1
    · rw [wait_idle env 0 w (List.length_eq_zero.mp h0.choose_spec.2.2)]
      exact h0
    · obtain ⟨p, hp⟩ := List.length_eq_one.mp h1.choose_spec.2.2
      rw [wait_busy_zero env w p hp]
      exact Or.inr h1
  | succ fuel ih =>
    intro w hw
    rcases hw with h0 | h1
    · rw [wait_idle env _ w (List.length_eq_zero.mp h0.choose_spec.2.2)]
      exact h0
    · obtain ⟨p, hp⟩ := List.length_eq_one.mp h1.choose_spec.2.2
      obtain ⟨op, seq, d⟩ := p
      cases d with
      | succ d =>
        rw [wait_busy_delay env fuel w op seq d hp]
        obtain ⟨T, ht, ho, _⟩ := h1
        exact ih _ (Or.inr ⟨T, ht, ho, rfl⟩)
      | zero =>
        by_cases hr : env.result seq = NRF_SUCCESS
        · rw [wait_busy_done env fuel w op seq hp hr]
          exact ih _ (Or.inl (completed_ser env b w op seq h1))
        · rw [wait_busy_failed env fuel w op seq hp hr]
          exact Or.inl (completed_ser env b w op seq h1)

theorem submit_ser (env : Env) (b : List Ev) (op : Op) (hop : op.kind ≠ .read) :
    Triple (Ser b 0) (submit env op)
      (fun rc w => (rc = NRF_SUCCESS ∧ Ser b 1 w) ∨ (rc ≠ NRF_SUCCESS ∧ Ser b 0 w))
      (SerFail b) := by
  rintro w ⟨T, ht, ho, hq⟩
  have hq0 : w.queue = [] := List.length_eq_zero.mp hq
  show (env.rc w.calls = NRF_SUCCESS ∧ Ser b 1 _) ∨ (env.rc w.calls ≠ NRF_SUCCESS ∧ Ser b 0 _)
  by_cases hr : env.rc w.calls = NRF_SUCCESS
  · refine Or.inl ⟨hr, T ++ [Ev.issue op (env.rc w.calls)], ?_, ?_, ?_⟩
    · show w.trace ++ [Ev.issue op (env.rc w.calls)] = _
      rw [ht, List.append_assoc]
    · rw [outstanding_snoc, ho]
      simp [flightStep, hop, hr]
    · show (if env.rc w.calls = NRF_SUCCESS then
          w.queue ++ [⟨op, w.calls, env.latency w.calls⟩] else w.queue).length = 1
      rw [if_pos hr, hq0]
      rfl
  · refine Or.inr ⟨hr, T ++ [Ev.issue op (env.rc w.calls)], ?_, ?_, ?_⟩
    · show w.trace ++ [Ev.issue op (env.rc w.calls)] = _
      rw [ht, List.append_assoc]
    · rw [outstanding_snoc, ho]
      simp [flightStep, hr]
    · show (if env.rc w.calls = NRF_SUCCESS then
          w.queue ++ [⟨op, w.calls, env.latency w.calls⟩] else w.queue).length = 0
      rw [if_neg hr, hq0]
      rfl

theorem check_ser (b : List Ev) (rc : Nat) :
    Triple (fun w => (rc = NRF_SUCCESS ∧ Ser b 1 w) ∨ (rc ≠ NRF_SUCCESS ∧ Ser b 0 w))
      (APP_ERROR_CHECK rc) (fun _ => Ser b 1) (SerFail b) := by
  intro w hw
  rcases hw with ⟨hr, hs⟩ | ⟨hr, hs⟩
  · show (if rc = NRF_SUCCESS then Result.ok () w else Result.fatal w).Sat _ _
    rw [if_pos hr]
    exact hs
  · show (if rc = NRF_SUCCESS then Result.ok () w else Result.fatal w).Sat _ _
    rw [if_neg hr]
    exact Or.inl hs

theorem wait_ser_busy (env : Env) (b : List Ev) (fuel : Nat) :
    Triple (Ser b 1) (wait_for_flash_ready env fuel) (fun _ => Ser b 0) (SerFail b) :=
  fun w hw => wait_ser env b fuel w (Or.inr hw)

theorem wait_ser_idle (env : Env) (b : List Ev) (fuel : Nat) :
    Triple (Ser b 0) (wait_for_flash_ready env fuel) (fun _ => Ser b 0) (SerFail b) :=
  fun w hw => wait_ser env b fuel w (Or.inl hw)

theorem step_ser (env : Env) (b : List Ev) (fuel : Nat) (op : Op) (hop : op.kind ≠ .read)
    {β : Type} (k : Prog β) {Q : β → World → Prop} (hk : Triple (Ser b 0) k Q (SerFail b)) :
    Triple (Ser b 0) (submit env op >>= fun rc => APP_ERROR_CHECK rc >>= fun _ =>
      wait_for_flash_ready env fuel >>= fun _ => k) Q (SerFail b) :=
  Triple.bind (submit_ser env b op hop) fun rc =>
    Triple.bind (check_ser b rc) fun _ =>
      Triple.bind (wait_ser_busy env b fuel) fun _ => hk

theorem last_step_ser (env : Env) (b : List Ev) (fuel : Nat) (op : Op) (hop : op.kind ≠ .read) :
    Triple (Ser b 0) (submit env op >>= fun rc => APP_ERROR_CHECK rc >>= fun _ =>
      wait_for_flash_ready env fuel) (fun _ => Ser b 0) (SerFail b) :=
  Triple.bind (submit_ser env b op hop) fun rc =>
    Triple.bind (check_ser b rc) fun _ => wait_ser_busy env b fuel

theorem get_triple {β : Type} (g : World → Nat) (P : World → Prop) (R : World → Prop)
    (f : Nat → Prog β) {Q : β → World → Prop} (hf : ∀ a, Triple P (f a) Q R) :
    Triple P ((fun w => Result.ok (g w) w : Prog Nat) >>= f) Q R :=
  Triple.bind (Q := fun _ => P) (fun _ hw => hw) hf

theorem eraseOp_kind (a : Nat) : (eraseOp a).kind ≠ .read := by
  simp [eraseOp]

theorem writeOp_kind (a v : Nat) : (writeOp a v).kind ≠ .read := by
  simp [writeOp]

theorem write_impact_ser (env : Env) (fuel : Nat) (b : List Ev) :
    Triple (Ser b 0) (fstorage_write_impact env fuel) (fun _ => Ser b 0) (SerFail b) := by
  unfold fstorage_write_impact
  simp only [erase_eq, write_eq]
  refine step_ser env b fuel _ (eraseOp_kind _) _ ?_
  refine step_ser env b fuel _ (eraseOp_kind _) _ ?_
  refine step_ser env b fuel _ (eraseOp_kind _) _ ?_
  refine get_triple (fun w => w.impact_count % 2 ^ 32) _ _ _ fun a => ?_
  refine step_ser env b fuel _ (writeOp_kind _ _) _ ?_
  refine get_triple (fun w => w.impact_score_latest % 2 ^ 32) _ _ _ fun a => ?_
  refine step_ser env b fuel _ (writeOp_kind _ _) _ ?_
  refine get_triple (fun w => w.impact_score_max % 2 ^ 32) _ _ _ fun a => ?_
  exact last_step_ser env b fuel _ (writeOp_kind _ _)

theorem check_keep (P R : World → Prop) (hPR : ∀ w, P w → R w) (rc : Nat) :
    Triple P (APP_ERROR_CHECK rc) (fun _ => P) R := by
  intro w hw
  show (if rc = NRF_SUCCESS then Result.ok () w else Result.fatal w).Sat _ _
  by_cases hr : rc = NRF_SUCCESS
  · rw [if_pos hr]
    exact hw
  · rw [if_neg hr]
    exact hPR w hw

theorem read_ser (env : Env) (b : List Ev) (addr len : Nat) :
    Triple (Ser b 0) (nrf_fstorage_read env addr len) (fun _ => Ser b 0) (SerFail b) := by
  rintro w ⟨T, ht, ho, hq⟩
  refine ⟨T ++ [Ev.issue ⟨.read, addr, len, []⟩ (env.rc w.calls)], ?_, ?_, hq⟩
  · show w.trace ++ [Ev.issue ⟨.read, addr, len, []⟩ (env.rc w.calls)] = _
    rw [ht, List.append_assoc]
  · rw [outstanding_snoc, ho]
    simp [flightStep]

theorem set_impact_count_ser (b : List Ev) (n v : Nat) :
    Triple (Ser b n) (set_impact_count v) (fun _ => Ser b n) (SerFail b) :=
  fun _ hw => hw

theorem set_impact_score_latest_ser (b : List Ev) (n v : Nat) :
    Triple (Ser b n) (set_impact_score_latest v) (fun _ => Ser b n) (SerFail b) :=
  fun _ hw => hw

theorem set_impact_score_max_ser (b : List Ev) (n v : Nat) :
    Triple (Ser b n) (set_impact_score_max v) (fun _ => Ser b n) (SerFail b) :=
  fun _ hw => hw

theorem read_impact_ser (env : Env) (fuel : Nat) (b : List Ev) :
    Triple (Ser b 0) (fstorage_read_impact env fuel) (fun _ => Ser b 0) (SerFail b) := by
  unfold fstorage_read_impact
  refine Triple.bind (read_ser env b _ _) ?_
  rintro ⟨rc, read_data⟩
  refine Triple.bind (check_keep _ _ (fun _ h => Or.inl h) rc) fun _ => ?_
  refine Triple.bind (set_impact_count_ser b 0 _) fun _ => ?_
  refine Triple.bind (read_ser env b _ _) ?_
  rintro ⟨rc, read_data⟩
  refine Triple.bind (check_keep _ _ (fun _ h => Or.inl h) rc) fun _ => ?_
  refine Triple.bind (set_impact_score_latest_ser b 0 _) fun _ => ?_
  refine Triple.bind (read_ser env b _ _) ?_
  rintro ⟨rc, read_data⟩
  refine Triple.bind (check_keep _ _ (fun _ h => Or.inl h) rc) fun _ => ?_
  refine Triple.bind (set_impact_score_max_ser b 0 _) fun _ => ?_
  exact wait_ser_idle env b fuel

/-- C4: started with the driver idle, in every run of `fstorage_write_impact` and of
`fstorage_read_impact` (whatever the return codes, completion results and latencies, and
however the run ends) each request is made while no earlier request is outstanding, at most
one request is outstanding when the run ends, and the driver is idle with nothing outstanding
whenever the function returns. -/
theorem single_outstanding (env : Env) (fuel : Nat) (w : World) (hq : w.queue = []) :
    (∃ T n, (fstorage_write_impact env fuel w).world.trace = w.trace ++ T ∧
      outstanding T = some n ∧ n ≤ 1 ∧
      (fstorage_write_impact env fuel w).world.queue.length = n ∧
      ∀ w', fstorage_write_impact env fuel w = .ok () w' →
        n = 0 ∧ nrf_fstorage_is_busy w' = false) ∧
    (∃ T n, (fstorage_read_impact env fuel w).world.trace = w.trace ++ T ∧
      outstanding T = some n ∧ n ≤ 1 ∧
      (fstorage_read_impact env fuel w).world.queue.length = n ∧
      ∀ w', fstorage_read_impact env fuel w = .ok () w' →
        n = 0 ∧ nrf_fstorage_is_busy w' = false) := by
  have hstart : Ser w.trace 0 w := ⟨[], by simp, rfl, by simp [hq]⟩
  have key : ∀ r : Result Unit, r.Sat (fun _ => Ser w.trace 0) (SerFail w.trace) →
      ∃ T n, r.world.trace = w.trace ++ T ∧ outstanding T = some n ∧ n ≤ 1 ∧
        r.world.queue.length = n ∧
        ∀ w', r = .ok () w' → n = 0 ∧ nrf_fstorage_is_busy w' = false := by
    intro r hr
    cases r with
    | ok a w1 =>
      obtain ⟨T, ht, ho, hl⟩ := hr
      refine ⟨T, 0, ht, ho, Nat.zero_le _, hl, fun w' hw' => ⟨rfl, ?_⟩⟩
      cases hw'
      have : w1.queue = [] := List.length_eq_zero.mp hl
      simp [nrf_fstorage_is_busy, this]
    | fatal w1 =>
      rcases hr with ⟨T, ht, ho, hl⟩ | ⟨T, ht, ho, hl⟩
      · exact ⟨T, 0, ht, ho, Nat.zero_le _, hl, fun w' hw' => by cases hw'⟩
      · exact ⟨T, 1, ht, ho, Nat.le_refl _, hl, fun w' hw' => by cases hw'⟩
    | hung w1 =>
      rcases hr with ⟨T, ht, ho, hl⟩ | ⟨T, ht, ho, hl⟩
      · exact ⟨T, 0, ht, ho, Nat.zero_le _, hl, fun w' hw' => by cases hw'⟩
      · exact ⟨T, 1, ht, ho, Nat.le_refl _, hl, fun w' hw' => by cases hw'⟩
  exact ⟨key _ (write_impact_ser env fuel w.trace w hstart),
    key _ (read_impact_ser env fuel w.trace w hstart)⟩

/-- C4 on the concrete scenario, with a driver that completes each request after two unrelated
wake-ups. -/
theorem single_outstanding_witness :
    scenario.queue = [] ∧
    ((∃ T n, (fstorage_write_impact slowEnv 3 scenario).world.trace = scenario.trace ++ T ∧
      outstanding T = some n ∧ n ≤ 1 ∧
      (fstorage_write_impact slowEnv 3 scenario).world.queue.length = n ∧
      ∀ w', fstorage_write_impact slowEnv 3 scenario = .ok () w' →
        n = 0 ∧ nrf_fstorage_is_busy w' = false) ∧
    (∃ T n, (fstorage_read_impact slowEnv 3 scenario).world.trace = scenario.trace ++ T ∧
      outstanding T = some n ∧ n ≤ 1 ∧
      (fstorage_read_impact slowEnv 3 scenario).world.queue.length = n ∧
      ∀ w', fstorage_read_impact slowEnv 3 scenario = .ok () w' →
        n = 0 ∧ nrf_fstorage_is_busy w' = false)) :=
  ⟨rfl, single_outstanding slowEnv 3 scenario rfl⟩

theorem issuedOps_snoc_issue (T : List Ev) (op : Op) (rc : Nat) :
    issuedOps (T ++ [Ev.issue op rc]) = issuedOps T ++ [op] := by
  rw [issuedOps_append]
  rfl

theorem issuedOps_snoc_complete (T : List Ev) (op : Op) (r : Nat) :
    issuedOps (T ++ [Ev.complete op r]) = issuedOps T := by
  rw [issuedOps_append]
  exact List.append_nil _

theorem reg_issue (b : List Ev) (w w' : World) (op : Op) (rc : Nat) (hop : InRegion op)
    (h : Reg b w) (ht : w'.trace = w.trace ++ [Ev.issue op rc]) : Reg b w' := by
  obtain ⟨T, hT, hall⟩ := h
  refine ⟨T ++ [Ev.issue op rc], by rw [ht, hT, List.append_assoc], ?_⟩
  intro o ho
  rw [issuedOps_snoc_issue, List.mem_append, List.mem_singleton] at ho
  rcases ho with ho | rfl
  · exact hall o ho
  · exact hop

theorem reg_complete (b : List Ev) (w w' : World) (op : Op) (r : Nat)
    (h : Reg b w) (ht : w'.trace = w.trace ++ [Ev.complete op r]) : Reg b w' := by
  obtain ⟨T, hT, hall⟩ := h
  refine ⟨T ++ [Ev.complete op r], by rw [ht, hT, List.append_assoc], ?_⟩
  intro o ho
  rw [issuedOps_snoc_complete] at ho
  exact hall o ho

theorem submit_reg (env : Env) (b : List Ev) (op : Op) (hop : InRegion op) :
    Triple (Reg b) (submit env op) (fun _ => Reg b) (Reg b) :=
  fun w hw => reg_issue b w _ op (env.rc w.calls) hop hw rfl

theorem read_reg (env : Env) (b : List Ev) (addr len : Nat)
    (hop : InRegion ⟨.read, addr, len, []⟩) :
    Triple (Reg b) (nrf_fstorage_read env addr len) (fun _ => Reg b) (Reg b) :=
  fun w hw => reg_issue b w _ ⟨.read, addr, len, []⟩ (env.rc w.calls) hop hw rfl

theorem evt_wait_reg (env : Env) (b : List Ev) :
    Triple (Reg b) (sd_app_evt_wait env) (fun _ => Reg b) (Reg b) := by
  intro w hw
  cases hq : w.queue with
  | nil =>
    have : sd_app_evt_wait env w = .ok () w := by simp [sd_app_evt_wait, hq]
    rw [this]
    exact hw
  | cons p rest =>
    obtain ⟨op, seq, d⟩ := p
    cases d with
    | succ d =>
      have : sd_app_evt_wait env w = .ok () { w with queue := ⟨op, seq, d⟩ :: rest } := by
        simp [sd_app_evt_wait, hq]
      rw [this]
      exact hw
    | zero =>
      have hdone : Reg b { w with
          queue := rest
          flash := if env.result seq = NRF_SUCCESS then op.apply w.flash else w.flash
          trace := w.trace ++ [Ev.complete op (env.result seq)] } :=
        reg_complete b w _ op (env.result seq) hw rfl
      by_cases hr : env.result seq = NRF_SUCCESS
      · have : sd_app_evt_wait env w = .ok () { w with
            queue := rest
            flash := if env.result seq = NRF_SUCCESS then op.apply w.flash else w.flash
            trace := w.trace ++ [Ev.complete op (env.result seq)] } := by
          simp [sd_app_evt_wait, hq, fstorage_evt_handler, APP_ERROR_CHECK, hr]
        rw [this]
        exact hdone
      · have : sd_app_evt_wait env w = .fatal { w with
            queue := rest
            flash := if env.result seq = NRF_SUCCESS then op.apply w.flash else w.flash
            trace := w.trace ++ [Ev.complete op (env.result seq)] } := by
          simp [sd_app_evt_wait, hq, fstorage_evt_handler, APP_ERROR_CHECK, hr]
        rw [this]
        exact hdone

theorem wait_reg (env : Env) (b : List Ev) :
    ∀ fuel, Triple (Reg b) (wait_for_flash_ready env fuel) (fun _ => Reg b) (Reg b) := by
  intro fuel
  induction fuel with
  | zero =>
    intro w hw
    show (if nrf_fstorage_is_busy w then Result.hung w else Result.ok () w).Sat _ _
    cases nrf_fstorage_is_busy w
    · exact hw
    · exact hw
  | succ fuel ih =>
    intro w hw
    show (if nrf_fstorage_is_busy w then
        (sd_app_evt_wait env w).andThen (fun _ => wait_for_flash_ready env fuel)
      else Result.ok () w).Sat _ _
    cases nrf_fstorage_is_busy w
    · exact hw
    · exact Triple.bind (evt_wait_reg env b) (fun _ => ih) w hw

theorem step_reg (env : Env) (b : List Ev) (fuel : Nat) (op : Op) (hop : InRegion op)
    {β : Type} (k : Prog β) {Q : β → World → Prop} (hk : Triple (Reg b) k Q (Reg b)) :
    Triple (Reg b) (submit env op >>= fun rc => APP_ERROR_CHECK rc >>= fun _ =>
      wait_for_flash_ready env fuel >>= fun _ => k) Q (Reg b) :=
  Triple.bind (submit_reg env b op hop) fun rc =>
    Triple.bind (check_keep _ _ (fun _ h => h) rc) fun _ =>
      Triple.bind (wait_reg env b fuel) fun _ => hk

theorem last_step_reg (env : Env) (b : List Ev) (fuel : Nat) (op : Op) (hop : InRegion op) :
    Triple (Reg b) (submit env op >>= fun rc => APP_ERROR_CHECK rc >>= fun _ =>
      wait_for_flash_ready env fuel) (fun _ => Reg b) (Reg b) :=
  Triple.bind (submit_reg env b op hop) fun rc =>
    Triple.bind (check_keep _ _ (fun _ h => h) rc) fun _ => wait_reg env b fuel

theorem eraseOp_inRegion (a : Nat) (h1 : start_addr ≤ a) (h2 : a + 1 * PAGE_SIZE ≤ end_addr) :
    InRegion (eraseOp a) := ⟨h1, h2⟩

theorem writeOp_inRegion (a v : Nat) (h1 : start_addr ≤ a) (h2 : a + 4 ≤ end_addr) :
    InRegion (writeOp a v) := ⟨h1, h2⟩

theorem readOp_inRegion (a : Nat) (h1 : start_addr ≤ a) (h2 : a + 4 ≤ end_addr) :
    InRegion ⟨.read, a, 4, []⟩ := ⟨h1, h2⟩

theorem write_impact_reg (env : Env) (fuel : Nat) (b : List Ev) :
    Triple (Reg b) (fstorage_write_impact env fuel) (fun _ => Reg b) (Reg b) := by
  unfold fstorage_write_impact
  simp only [erase_eq, write_eq]
  refine step_reg env b fuel _ (eraseOp_inRegion _ (by decide) (by decide)) _ ?_
  refine step_reg env b fuel _ (eraseOp_inRegion _ (by decide) (by decide)) _ ?_
  refine step_reg env b fuel _ (eraseOp_inRegion _ (by decide) (by decide)) _ ?_
  refine get_triple (fun w => w.impact_count % 2 ^ 32) _ _ _ fun a => ?_
  refine step_reg env b fuel _ (writeOp_inRegion _ _ (by decide) (by decide)) _ ?_
  refine get_triple (fun w => w.impact_score_latest % 2 ^ 32) _ _ _ fun a => ?_
  refine step_reg env b fuel _ (writeOp_inRegion _ _ (by decide) (by decide)) _ ?_
  refine get_triple (fun w => w.impact_score_max % 2 ^ 32) _ _ _ fun a => ?_
  exact last_step_reg env b fuel _ (writeOp_inRegion _ _ (by decide) (by decide))

theorem set_impact_count_reg (b : List Ev) (v : Nat) :
    Triple (Reg b) (set_impact_count v) (fun _ => Reg b) (Reg b) :=
  fun _ hw => hw

theorem set_impact_score_latest_reg (b : List Ev) (v : Nat) :
    Triple (Reg b) (set_impact_score_latest v) (fun _ => Reg b) (Reg b) :=
  fun _ hw => hw

theorem set_impact_score_max_reg (b : List Ev) (v : Nat) :
    Triple (Reg b) (set_impact_score_max v) (fun _ => Reg b) (Reg b) :=
  fun _ hw => hw

theorem read_impact_reg (env : Env) (fuel : Nat) (b : List Ev) :
    Triple (Reg b) (fstorage_read_impact env fuel) (fun _ => Reg b) (Reg b) := by
  unfold fstorage_read_impact
  refine Triple.bind (read_reg env b _ _ (readOp_inRegion _ (by decide) (by decide))) ?_
  rintro ⟨rc, read_data⟩
  refine Triple.bind (check_keep _ _ (fun _ h => h) rc) fun _ => ?_
  refine Triple.bind (set_impact_count_reg b _) fun _ => ?_
  refine Triple.bind (read_reg env b _ _ (readOp_inRegion _ (by decide) (by decide))) ?_
  rintro ⟨rc, read_data⟩
  refine Triple.bind (check_keep _ _ (fun _ h => h) rc) fun _ => ?_
  refine Triple.bind (set_impact_score_latest_reg b _) fun _ => ?_
  refine Triple.bind (read_reg env b _ _ (readOp_inRegion _ (by decide) (by decide))) ?_
  rintro ⟨rc, read_data⟩
  refine Triple.bind (check_keep _ _ (fun _ h => h) rc) fun _ => ?_
  refine Triple.bind (set_impact_score_max_reg b _) fun _ => ?_
  exact wait_reg env b fuel

theorem sat_reg_world (b : List Ev) (r : Result Unit) (h : r.Sat (fun _ => Reg b) (Reg b)) :
    Reg b r.world := by
  cases r with
  | ok a w => exact h
  | fatal w => exact h
  | hung w => exact h

theorem reg_refl (w : World) : Reg w.trace w :=
  ⟨[], (List.append_nil _).symm, fun _ h => absurd h (List.not_mem_nil _)⟩

/-- C6: in every run of `fstorage_write_impact` and of `fstorage_read_impact` (whatever the
initial state, the mirrors, the return codes, completion results and latencies, and however
the run ends) every request made of the driver addresses only locations inside
`[start_addr, end_addr)` = `[0x7D000, 0x80000)`: each erased range of whole 4 KiB pages and
each written or read byte range lies wholly within the region. -/
theorem region_exclusive (env : Env) (fuel : Nat) (w : World) :
    start_addr = 0x7D000 ∧ end_addr = 0x80000 ∧
    (∃ T, (fstorage_write_impact env fuel w).world.trace = w.trace ++ T ∧
      ∀ op ∈ issuedOps T, start_addr ≤ op.addr ∧ op.addr + op.extent ≤ end_addr) ∧
    (∃ T, (fstorage_read_impact env fuel w).world.trace = w.trace ++ T ∧
      ∀ op ∈ issuedOps T, start_addr ≤ op.addr ∧ op.addr + op.extent ≤ end_addr) :=
  ⟨rfl, rfl, sat_reg_world _ _ (write_impact_reg env fuel w.trace w (reg_refl w)),
    sat_reg_world _ _ (read_impact_reg env fuel w.trace w (reg_refl w))⟩

end Fstorage
